import Mathlib

/-!
# The arena simulation core (`src/arena.cc`)

A shallow embedding of `csci3081::Arena` and the properties of its wall and
entity collision geometry and of its timestep pipeline.

Conventions of the embedding.

* C++ `double` coordinates are idealised as exact numbers.  The wall geometry
  only adds, subtracts and compares, so it is written over an arbitrary linear
  ordered field `α` (executable at `ℚ`).  The entity geometry calls `sqrt`,
  `atan`, `cos` and `sin`, so it is written over `ℝ`.
* Entities live in a vector of pointers; an entity's identity is its index in
  `entities`, and `mobile_entities` and `robot` hold such indices.
* The virtual methods of the entity classes are not part of `arena.cc`; they are
  the fields of an `EntityContract`, and every call the arena makes to one of
  them is recorded in the ghost field `calls`.
-/

namespace csci3081

/-- Modelled from the spec: the entity type tags (Robot, Base, Obstacle, the four wall markers
and the undefined sentinel); the enumeration is declared in a header that `arena.cc` only
includes. -/
inductive EntityType where
  | kRobot
  | kObstacle
  | kBase
  | kRightWall
  | kLeftWall
  | kTopWall
  | kBottomWall
  | kUndefined
  deriving DecidableEq, Repr

/-- Modelled from the spec: the game status, one of Paused, Playing, Won, Lost. -/
inductive GameStatus where
  | PAUSED
  | PLAYING
  | WON
  | LOST
  deriving DecidableEq, Repr

/-- Modelled from the spec: a pose is a 2D position `(x, y)`. -/
structure Pose (α : Type) where
  x : α
  y : α
  deriving DecidableEq, Repr

/-- Modelled from the spec: an arena entity has a type tag, a pose and a radius; the robot
variant has remaining lives and a count of captured bases.  Whatever else an entity variant
stores (heading, speed, initial pose, ...) is the field `internal`, which the arena never
reads. -/
structure ArenaEntity (α σ : Type) where
  type : EntityType
  pose : Pose α
  radius : α
  lives : Int
  num_bases_captured : Int
  internal : σ

/-- Modelled from the spec: position mutation of a mobile entity, `set_position(x, y)`; it
replaces the position and nothing else. -/
def ArenaEntity.set_position {α σ : Type} (ent : ArenaEntity α σ) (x y : α) : ArenaEntity α σ :=
  { ent with pose := ⟨x, y⟩ }

section Walls

variable {α σ : Type} [LinearOrderedField α]

/-- The function `Arena::GetCollisionWall` (arena.cc:124-136); `x_dim` and `y_dim` are the
members `x_dim_` and `y_dim_` of the arena. -/
def GetCollisionWall (x_dim y_dim : α) (ent : ArenaEntity α σ) : EntityType :=
  if ent.pose.x + ent.radius ≥ x_dim then
    EntityType.kRightWall
  else if ent.pose.x - ent.radius ≤ 0 then
    EntityType.kLeftWall
  else if ent.pose.y + ent.radius ≥ y_dim then
    EntityType.kBottomWall
  else if ent.pose.y - ent.radius ≤ 0 then
    EntityType.kTopWall
  else
    EntityType.kUndefined

/-- The function `Arena::AdjustWallOverlap` (arena.cc:140-158); the result is the state of
`*ent` after the call. -/
def AdjustWallOverlap (x_dim y_dim : α) (ent : ArenaEntity α σ) (object : EntityType) :
    ArenaEntity α σ :=
  let entity_pos := ent.pose
  match object with
  | EntityType.kRightWall => ent.set_position (x_dim - (ent.radius + 5)) entity_pos.y
  | EntityType.kLeftWall => ent.set_position (ent.radius + 5) entity_pos.y
  | EntityType.kTopWall => ent.set_position entity_pos.x (ent.radius + 5)
  | EntityType.kBottomWall => ent.set_position entity_pos.x (y_dim - (ent.radius + 5))
  | _ => ent

/-- Wall detection followed by resolution on the reported wall, as `UpdateEntitiesTimestep`
performs them on one mobile entity (arena.cc:104-106), without the collision hook. -/
def ResolveWallOverlap (x_dim y_dim : α) (ent : ArenaEntity α σ) : ArenaEntity α σ :=
  let wall := GetCollisionWall x_dim y_dim ent
  if EntityType.kUndefined ≠ wall then AdjustWallOverlap x_dim y_dim ent wall else ent

end Walls

section Entities

variable {σ : Type}

/-- The function `Arena::IsColliding` (arena.cc:161-169). -/
noncomputable def IsColliding (mobile_e other_e : ArenaEntity ℝ σ) : Bool :=
  let delta_x := other_e.pose.x - mobile_e.pose.x
  let delta_y := other_e.pose.y - mobile_e.pose.y
  let distance_between := Real.sqrt (delta_x * delta_x + delta_y * delta_y)
  decide (distance_between ≤ mobile_e.radius + other_e.radius)

/-- The function `Arena::AdjustEntityOverlap` (arena.cc:179-190); the result is the state of
`*mobile_e` after the call.  The quotient `delta_y / delta_x` is the real quotient, so the
model says nothing faithful about the call when `delta_x = 0`, where the C++ quotient is an
infinity or a NaN. -/
noncomputable def AdjustEntityOverlap (mobile_e other_e : ArenaEntity ℝ σ) : ArenaEntity ℝ σ :=
  let delta_x := other_e.pose.x - mobile_e.pose.x
  let delta_y := other_e.pose.y - mobile_e.pose.y
  let distance_between := Real.sqrt (delta_x * delta_x + delta_y * delta_y)
  let distance_to_move := mobile_e.radius + other_e.radius - distance_between
  let angle := Real.arctan (delta_y / delta_x)
  mobile_e.set_position
    (mobile_e.pose.x + Real.cos angle * distance_to_move)
    (mobile_e.pose.y + Real.sin angle * distance_to_move)

/-- The Euclidean distance between the centres of two entities. -/
noncomputable def centreDistance (e1 e2 : ArenaEntity ℝ σ) : ℝ :=
  Real.sqrt ((e2.pose.x - e1.pose.x) ^ 2 + (e2.pose.y - e1.pose.y) ^ 2)

end Entities

/-! ## The arena state and the timestep pipeline -/

/-- A call the arena makes to a method of an entity; `ent` is the index in `entities` of
the entity the method is called on. -/
inductive HookCall where
  | TimestepUpdate (ent : Nat) (dt : Nat)
  | HandleCollision (ent : Nat) (object_type : EntityType) (object : Option Nat)
  | Reset (ent : Nat)
  | IncreaseSpeed (ent : Nat)
  | DecreaseSpeed (ent : Nat)
  | TurnLeft (ent : Nat)
  | TurnRight (ent : Nat)
  deriving DecidableEq, Repr

/-- Whether a recorded call is a call of the collision hook. -/
def HookCall.isHandleCollision : HookCall → Bool
  | HookCall.HandleCollision _ _ _ => true
  | _ => false

/-- Modelled from the spec: the entity contract, implemented outside `arena.cc`.  Each method
acts on the state of the entity it is called on.  `HandleCollision` is given the type tag and
the entity it collided with (`none` for the `NULL` passed with a wall) and returns the new
state of the receiver together with the state in which it leaves the entity it was passed;
`none` there means that entity is untouched. -/
structure EntityContract (σ : Type) where
  TimestepUpdate : ArenaEntity ℝ σ → Nat → ArenaEntity ℝ σ
  HandleCollision : ArenaEntity ℝ σ → EntityType → Option (ArenaEntity ℝ σ) →
    ArenaEntity ℝ σ × Option (ArenaEntity ℝ σ)
  Reset : ArenaEntity ℝ σ → ArenaEntity ℝ σ
  IncreaseSpeed : ArenaEntity ℝ σ → ArenaEntity ℝ σ
  DecreaseSpeed : ArenaEntity ℝ σ → ArenaEntity ℝ σ
  TurnLeft : ArenaEntity ℝ σ → ArenaEntity ℝ σ
  TurnRight : ArenaEntity ℝ σ → ArenaEntity ℝ σ

/-- The data members of `Arena`.  `entities` holds the entity objects in the order of
`entities_`; `mobile_entities` and `robot` hold indices into it (the pointers of
`mobile_entities_` and `robot_`).  `calls` is a ghost record of the entity methods called so
far, oldest first. -/
structure Arena (σ : Type) where
  x_dim : ℝ
  y_dim : ℝ
  entities : List (ArenaEntity ℝ σ)
  mobile_entities : List Nat
  robot : Nat
  game_status : GameStatus
  calls : List HookCall

/-- A C++ `double` as an order comparison sees it: a NaN, an infinity, or a finite value. -/
inductive Double where
  | nan
  | negInf
  | posInf
  | finite (v : ℚ)
  deriving DecidableEq, Repr

/-- The C++ comparison `dt > 0` on a `double`: false for a NaN. -/
def Double.gtZero : Double → Bool
  | Double.nan => false
  | Double.negInf => false
  | Double.posInf => true
  | Double.finite v => decide (0 < v)

section Pipeline

variable {σ : Type}

/-- One iteration of the loop at arena.cc:86-88: `ent->TimestepUpdate(1)` on the entity at
index `i`. -/
def callTimestepUpdate (c : EntityContract σ) (a : Arena σ) (i : Nat) : Arena σ :=
  match a.entities[i]? with
  | some ent =>
    { a with
      entities := a.entities.set i (c.TimestepUpdate ent 1)
      calls := a.calls ++ [HookCall.TimestepUpdate i 1] }
  | none => a

/-- The loop at arena.cc:86-88 over `entities_`. -/
def updateEntities (c : EntityContract σ) (a : Arena σ) : Arena σ :=
  (List.range a.entities.length).foldl (callTimestepUpdate c) a

/-- The win/loss check at arena.cc:93-98; `N_BASES` is a constant defined outside
`arena.cc`. -/
def checkWinLoss (N_BASES : Int) (a : Arena σ) : Arena σ :=
  match a.entities[a.robot]? with
  | some robot =>
    let a1 := if robot.lives = 0 then { a with game_status := GameStatus.LOST } else a
    if robot.num_bases_captured = N_BASES then { a1 with game_status := GameStatus.WON }
    else a1
  | none => a

/-- The wall part of the loop body at arena.cc:104-108 for the mobile entity at index
`i`. -/
noncomputable def collideWall (c : EntityContract σ) (a : Arena σ) (i : Nat) : Arena σ :=
  match a.entities[i]? with
  | some ent1 =>
    let wall := GetCollisionWall a.x_dim a.y_dim ent1
    if EntityType.kUndefined ≠ wall then
      let r := c.HandleCollision (AdjustWallOverlap a.x_dim a.y_dim ent1 wall) wall none
      { a with
        entities := a.entities.set i r.1
        calls := a.calls ++ [HookCall.HandleCollision i wall none] }
    else a
  | none => a

/-- One iteration of the inner loop at arena.cc:112-118: the mobile entity at index `i`
against the entity at index `j`. -/
noncomputable def collideEntity (c : EntityContract σ) (i : Nat) (a : Arena σ) (j : Nat) :
    Arena σ :=
  if j = i then a
  else
    match a.entities[i]?, a.entities[j]? with
    | some ent1, some ent2 =>
      if IsColliding ent1 ent2 then
        let r := c.HandleCollision (AdjustEntityOverlap ent1 ent2) ent2.type (some ent2)
        { a with
          entities := (a.entities.set i r.1).set j (r.2.getD ent2)
          calls := a.calls ++ [HookCall.HandleCollision i ent2.type (some j)] }
      else a
    | _, _ => a

/-- One iteration of the outer loop at arena.cc:103-119 for the mobile entity at index
`i`. -/
noncomputable def collideMobile (c : EntityContract σ) (a : Arena σ) (i : Nat) : Arena σ :=
  let a1 := collideWall c a i
  (List.range a1.entities.length).foldl (collideEntity c i) a1

/-- The function `Arena::UpdateEntitiesTimestep` (arena.cc:81-120). -/
noncomputable def UpdateEntitiesTimestep (c : EntityContract σ) (N_BASES : Int) (a : Arena σ) :
    Arena σ :=
  let a1 := updateEntities c a
  let a2 := checkWinLoss N_BASES a1
  a2.mobile_entities.foldl (collideMobile c) a2

/-- The function `Arena::AdvanceTime` (arena.cc:72-79). -/
noncomputable def AdvanceTime (c : EntityContract σ) (N_BASES : Int) (dt : Double)
    (a : Arena σ) : Arena σ :=
  if !dt.gtZero then a
  else (List.range 1).foldl (fun s _ => UpdateEntitiesTimestep c N_BASES s) a

end Pipeline

/-! ## Reset, command dispatch and construction -/

/-- Modelled from the spec: the commands of the external controller.  The enumeration is
declared in a header that `arena.cc` only includes; `kOther` stands for any value of the
enumeration type that is none of the eight the switch names. -/
inductive Communication where
  | kIncreaseSpeed
  | kDecreaseSpeed
  | kTurnLeft
  | kTurnRight
  | kPlay
  | kPause
  | kReset
  | kNone
  | kOther (code : Nat)
  deriving DecidableEq, Repr

/-- Modelled from the spec: the construction parameters, a plain record of the arena
dimensions and the numbers of bases and obstacles (`struct arena_params`, declared in a
header that `arena.cc` only includes). -/
structure arena_params where
  x_dim : ℝ
  y_dim : ℝ
  n_bases : Int
  n_obstacles : Int

/-- Whether a type tag is that of a mobile entity variant (robot or obstacle). -/
def EntityType.isMobile : EntityType → Bool
  | EntityType.kRobot => true
  | EntityType.kObstacle => true
  | _ => false

section Commands

variable {σ : Type}

/-- One iteration of the loop at arena.cc:66-68: `ent->Reset()` on the entity at index
`i`. -/
def callReset (c : EntityContract σ) (a : Arena σ) (i : Nat) : Arena σ :=
  match a.entities[i]? with
  | some ent =>
    { a with
      entities := a.entities.set i (c.Reset ent)
      calls := a.calls ++ [HookCall.Reset i] }
  | none => a

/-- The function `Arena::Reset` (arena.cc:64-69). -/
def Reset (c : EntityContract σ) (a : Arena σ) : Arena σ :=
  let a1 := { a with game_status := GameStatus.PLAYING }
  (List.range a1.entities.length).foldl (callReset c) a1

/-- A call `robot_->method()` of a control method of the robot (arena.cc:198-207); `method`
is the effect of the method on the robot and `call` the record of the call. -/
def callRobot (method : ArenaEntity ℝ σ → ArenaEntity ℝ σ) (call : Nat → HookCall)
    (a : Arena σ) : Arena σ :=
  match a.entities[a.robot]? with
  | some robot =>
    { a with
      entities := a.entities.set a.robot (method robot)
      calls := a.calls ++ [call a.robot] }
  | none => a

/-- The function `Arena::AcceptCommand` (arena.cc:195-221). -/
def AcceptCommand (c : EntityContract σ) (com : Communication) (a : Arena σ) : Arena σ :=
  match com with
  | Communication.kIncreaseSpeed => callRobot c.IncreaseSpeed HookCall.IncreaseSpeed a
  | Communication.kDecreaseSpeed => callRobot c.DecreaseSpeed HookCall.DecreaseSpeed a
  | Communication.kTurnLeft => callRobot c.TurnLeft HookCall.TurnLeft a
  | Communication.kTurnRight => callRobot c.TurnRight HookCall.TurnRight a
  | Communication.kPlay => { a with game_status := GameStatus.PLAYING }
  | Communication.kPause => { a with game_status := GameStatus.PAUSED }
  | Communication.kReset => Reset c a
  | _ => a

end Commands

section Construction

variable {σ F : Type}

/-- The function `Arena::AddRobot` (arena.cc:45-49).  The state is the arena under
construction with the state of its entity factory; `CreateEntity` is
`EntityFactory::CreateEntity`, implemented outside `arena.cc`, which returns the entity it
creates and the next state of the factory.  The new entity gets the next free index. -/
def AddRobot (CreateEntity : F → EntityType → ArenaEntity ℝ σ × F) (s : Arena σ × F) :
    Arena σ × F :=
  let r := CreateEntity s.2 EntityType.kRobot
  ({ s.1 with
      robot := s.1.entities.length
      entities := s.1.entities ++ [r.1]
      mobile_entities := s.1.mobile_entities ++ [s.1.entities.length] }, r.2)

/-- One iteration of the loop of `Arena::AddEntity` (arena.cc:53-60). -/
def addOneEntity (CreateEntity : F → EntityType → ArenaEntity ℝ σ × F) (type : EntityType)
    (s : Arena σ × F) : Arena σ × F :=
  if type = EntityType.kObstacle then
    let r := CreateEntity s.2 type
    ({ s.1 with
        mobile_entities := s.1.mobile_entities ++ [s.1.entities.length]
        entities := s.1.entities ++ [r.1] }, r.2)
  else
    let r := CreateEntity s.2 type
    ({ s.1 with entities := s.1.entities ++ [r.1] }, r.2)

/-- The function `Arena::AddEntity` (arena.cc:51-62); the loop `for (i = 0; i < quantity;
i++)` runs `quantity` times, and not at all when `quantity` is negative. -/
def AddEntity (CreateEntity : F → EntityType → ArenaEntity ℝ σ × F) (type : EntityType)
    (quantity : Int) (s : Arena σ × F) : Arena σ × F :=
  (List.range quantity.toNat).foldl (fun s _ => addOneEntity CreateEntity type s) s

/-- The constructor `Arena::Arena` (arena.cc:24-34), `Construct` in the spec; `factory` is
the initial state of the `new EntityFactory`.  The member `robot_` is not in the initialiser
list: it gets its value in `AddRobot`. -/
def Arena.Construct (CreateEntity : F → EntityType → ArenaEntity ℝ σ × F) (factory : F)
    (params : arena_params) : Arena σ :=
  let s0 : Arena σ × F :=
    ({ x_dim := params.x_dim, y_dim := params.y_dim, entities := [], mobile_entities := [],
       robot := 0, game_status := GameStatus.PAUSED, calls := [] }, factory)
  let s1 := AddRobot CreateEntity s0
  let s2 := AddEntity CreateEntity EntityType.kBase params.n_bases s1
  let s3 := AddEntity CreateEntity EntityType.kObstacle params.n_obstacles s2
  s3.1

/-- The entities a factory in state `factory` creates when asked for the given type tags
one after the other, with the state it is left in. -/
def createAll (CreateEntity : F → EntityType → ArenaEntity ℝ σ × F) :
    F → List EntityType → List (ArenaEntity ℝ σ) × F
  | factory, [] => ([], factory)
  | factory, t :: ts =>
    let r := CreateEntity factory t
    let rs := createAll CreateEntity r.2 ts
    (r.1 :: rs.1, rs.2)

/-- The indices of the entities whose type tag is that of a mobile variant, in increasing
order: the positions in `entities` of the mobile ones. -/
def mobileIndices (entities : List (ArenaEntity ℝ σ)) : List Nat :=
  (List.range entities.length).filter
    (fun i => match entities[i]? with
      | some ent => ent.type.isMobile
      | none => false)

/-- The arenas a driver can reach: the constructed arena, and whatever `AdvanceTime`,
`AcceptCommand` and `Reset` make of a reachable arena. -/
inductive Reachable (CreateEntity : F → EntityType → ArenaEntity ℝ σ × F) (factory : F)
    (params : arena_params) (c : EntityContract σ) (N_BASES : Int) : Arena σ → Prop where
  | construct : Reachable CreateEntity factory params c N_BASES
      (Arena.Construct CreateEntity factory params)
  | advance (a : Arena σ) (dt : Double) :
      Reachable CreateEntity factory params c N_BASES a →
      Reachable CreateEntity factory params c N_BASES (AdvanceTime c N_BASES dt a)
  | command (a : Arena σ) (com : Communication) :
      Reachable CreateEntity factory params c N_BASES a →
      Reachable CreateEntity factory params c N_BASES (AcceptCommand c com a)
  | reset (a : Arena σ) :
      Reachable CreateEntity factory params c N_BASES a →
      Reachable CreateEntity factory params c N_BASES (Reset c a)

end Construction

section Frames

variable {σ : Type}

/-- Arena `b` differs from arena `a` by calls of the collision hook on entities listed in
`ms` only: dimensions, `mobile_entities`, `robot`, `game_status` and the number of entities
are those of `a`, and the calls recorded beyond those of `a` are all `HandleCollision` calls
received by an entity of `ms`. -/
def CollisionFrame (ms : List Nat) (a b : Arena σ) : Prop :=
  b.x_dim = a.x_dim ∧ b.y_dim = a.y_dim ∧ b.mobile_entities = a.mobile_entities ∧
  b.robot = a.robot ∧ b.game_status = a.game_status ∧
  b.entities.length = a.entities.length ∧
  ∃ rest : List HookCall, b.calls = a.calls ++ rest ∧
    ∀ e ∈ rest, ∃ i t o, e = HookCall.HandleCollision i t o ∧ i ∈ ms

end Frames

/-! ## Example data -/

/-- An entity contract used in examples: entities do not move on a tick; on a collision with
a base the receiver counts one more captured base, on a collision with an obstacle it loses a
life, and the other entity is left as it is. -/
def exampleContract : EntityContract Unit where
  TimestepUpdate := fun ent _ => ent
  HandleCollision := fun ent object_type object =>
    (if object_type = EntityType.kBase then
        { ent with num_bases_captured := ent.num_bases_captured + 1 }
      else if object_type = EntityType.kObstacle then { ent with lives := ent.lives - 1 }
      else ent, object)
  Reset := fun ent => ent
  IncreaseSpeed := fun ent => ent
  DecreaseSpeed := fun ent => ent
  TurnLeft := fun ent => ent
  TurnRight := fun ent => ent

/-- An example entity of the given type, position, radius, lives and captured-base count. -/
def exampleEntity (t : EntityType) (x y r : ℝ) (lives captured : Int) : ArenaEntity ℝ Unit :=
  { type := t, pose := ⟨x, y⟩, radius := r, lives := lives, num_bases_captured := captured,
    internal := () }

/-- An arena 100 by 100 in status Playing with the given entities and mobile entities, the
robot at index 0 and no call recorded yet. -/
def exampleArena (entities : List (ArenaEntity ℝ Unit)) (mobile : List Nat) : Arena Unit :=
  { x_dim := 100, y_dim := 100, entities := entities, mobile_entities := mobile, robot := 0,
    game_status := GameStatus.PLAYING, calls := [] }

/-- A robot with 3 lives and no captured base at (50, 50), overlapping a base at (53, 50);
both have radius 5. -/
def captureArena : Arena Unit :=
  exampleArena
    [exampleEntity EntityType.kRobot 50 50 5 3 0, exampleEntity EntityType.kBase 53 50 5 0 0]
    [0]

/-- A robot of radius 5 at (50, 50) with no life left and one captured base, and a base of
radius 5 at (20, 20), clear of the robot. -/
def wonAndLostArena : Arena Unit :=
  exampleArena
    [exampleEntity EntityType.kRobot 50 50 5 0 1, exampleEntity EntityType.kBase 20 20 5 0 0]
    [0]

/-- A robot of radius 5 at (50, 50) with no life left and no captured base, and a base of
radius 5 at (20, 20), clear of the robot. -/
def lostArena : Arena Unit :=
  exampleArena
    [exampleEntity EntityType.kRobot 50 50 5 0 0, exampleEntity EntityType.kBase 20 20 5 0 0]
    [0]

/-- A robot and an obstacle, both of radius 5 and both at (50, 50). -/
def overlapArena : Arena Unit :=
  exampleArena
    [exampleEntity EntityType.kRobot 50 50 5 9 0, exampleEntity EntityType.kObstacle 50 50 5 0 0]
    [0, 1]

/-- An entity contract used in examples: on a tick of size `dt` an entity moves `dt` units
along x; the other methods are those of `exampleContract`. -/
def movingContract : EntityContract Unit :=
  { exampleContract with
    TimestepUpdate := fun ent dt => { ent with pose := ⟨ent.pose.x + (dt : ℝ), ent.pose.y⟩ } }

/-- A lone robot of radius 5 at (50, 50) with 3 lives and no captured base. -/
def loneRobotArena : Arena Unit :=
  exampleArena [exampleEntity EntityType.kRobot 50 50 5 3 0] [0]

/-- An entity factory used in examples: its state counts the entities created so far, and
it creates an entity of the requested type with radius 5 at (50, 50). -/
def exampleFactory (created : Nat) (type : EntityType) : ArenaEntity ℝ Unit × Nat :=
  (exampleEntity type 50 50 5 9 0, created + 1)

/-- Construction parameters used in examples: 100 by 100, two bases, one obstacle. -/
def exampleParams : arena_params :=
  { x_dim := 100, y_dim := 100, n_bases := 2, n_obstacles := 1 }

section Population

variable {σ : Type}

/-- A relation `T` between the states of one entity that every step of the simulation
respects: it is reflexive and transitive, `set_position` respects it, and so does every
method of the entity contract `c`, on the receiver and on the entity handed to the collision
hook. -/
structure Respects (c : EntityContract σ) (T : ArenaEntity ℝ σ → ArenaEntity ℝ σ → Prop) :
    Prop where
  refl : ∀ e, T e e
  trans : ∀ e1 e2 e3, T e1 e2 → T e2 e3 → T e1 e3
  set_position : ∀ e x y, T e (e.set_position x y)
  TimestepUpdate : ∀ e k, T e (c.TimestepUpdate e k)
  HandleCollision : ∀ e t o, T e (c.HandleCollision e t o).1
  HandleCollision_object : ∀ e t o o2, (c.HandleCollision e t (some o)).2 = some o2 → T o o2
  Reset : ∀ e, T e (c.Reset e)
  IncreaseSpeed : ∀ e, T e (c.IncreaseSpeed e)
  DecreaseSpeed : ∀ e, T e (c.DecreaseSpeed e)
  TurnLeft : ∀ e, T e (c.TurnLeft e)
  TurnRight : ∀ e, T e (c.TurnRight e)

/-- Arena `b` has the population of arena `a`: the same dimensions, the same
`mobile_entities` and `robot`, and entity by entity a state related by `T` to the one in
`a`; in particular the same number of entities. -/
def PopulationKept (T : ArenaEntity ℝ σ → ArenaEntity ℝ σ → Prop) (a b : Arena σ) : Prop :=
  b.x_dim = a.x_dim ∧ b.y_dim = a.y_dim ∧ b.mobile_entities = a.mobile_entities ∧
  b.robot = a.robot ∧ List.Forall₂ T a.entities b.entities

/-- Arena `b` has as many entities as arena `a`, and the same `mobile_entities`, `robot` and
dimensions. -/
def SamePopulation (a b : Arena σ) : Prop :=
  b.entities.length = a.entities.length ∧ b.mobile_entities = a.mobile_entities ∧
  b.robot = a.robot ∧ b.x_dim = a.x_dim ∧ b.y_dim = a.y_dim

/-- No method of the entity contract changes the type tag of an entity. -/
def TypePreserving (c : EntityContract σ) : Prop :=
  Respects c (fun e e2 => e2.type = e.type)

end Population

/-- A mobile entity of radius 5 at (6, 0), to the right of `leftOther`. -/
def rightMobile : ArenaEntity ℝ Unit := exampleEntity EntityType.kRobot 6 0 5 9 0

/-- An entity of radius 5 at (0, 0). -/
def leftOther : ArenaEntity ℝ Unit := exampleEntity EntityType.kBase 0 0 5 0 0

section MobileStart

variable {σ : Type}

end MobileStart

section PairTest

variable {σ : Type}

/-- The arena at the moment a tick that started from `a` tests the mobile entity at index `i`
against the entity at index `j` (arena.cc:114): the entities have been updated, the win/loss
check has run, the mobile entities `pre` listed before `i` have been processed, the wall
check of `i` is done and `i` has been tested against the entities at indices below `j`. -/
noncomputable def atPairTest (c : EntityContract σ) (N_BASES : Int) (a : Arena σ)
    (pre : List Nat) (i j : Nat) : Arena σ :=
  (List.range j).foldl (collideEntity c i)
    (collideWall c (pre.foldl (collideMobile c) (checkWinLoss N_BASES (updateEntities c a))) i)

end PairTest

/-! ## Wall detection and resolution -/

section WallTheorems

variable {α σ : Type} [LinearOrderedField α]

theorem GetCollisionWall_right (W H : α) (ent : ArenaEntity α σ)
    (h : ent.pose.x + ent.radius ≥ W) : GetCollisionWall W H ent = EntityType.kRightWall := by
  simp [GetCollisionWall, h]

theorem GetCollisionWall_left (W H : α) (ent : ArenaEntity α σ)
    (h1 : ¬ ent.pose.x + ent.radius ≥ W) (h2 : ent.pose.x - ent.radius ≤ 0) :
    GetCollisionWall W H ent = EntityType.kLeftWall := by
  unfold GetCollisionWall
  rw [if_neg h1, if_pos h2]

theorem GetCollisionWall_bottom (W H : α) (ent : ArenaEntity α σ)
    (h1 : ¬ ent.pose.x + ent.radius ≥ W) (h2 : ¬ ent.pose.x - ent.radius ≤ 0)
    (h3 : ent.pose.y + ent.radius ≥ H) :
    GetCollisionWall W H ent = EntityType.kBottomWall := by
  unfold GetCollisionWall
  rw [if_neg h1, if_neg h2, if_pos h3]

theorem GetCollisionWall_top (W H : α) (ent : ArenaEntity α σ)
    (h1 : ¬ ent.pose.x + ent.radius ≥ W) (h2 : ¬ ent.pose.x - ent.radius ≤ 0)
    (h3 : ¬ ent.pose.y + ent.radius ≥ H) (h4 : ent.pose.y - ent.radius ≤ 0) :
    GetCollisionWall W H ent = EntityType.kTopWall := by
  unfold GetCollisionWall
  rw [if_neg h1, if_neg h2, if_neg h3, if_pos h4]

theorem GetCollisionWall_none (W H : α) (ent : ArenaEntity α σ)
    (h1 : ¬ ent.pose.x + ent.radius ≥ W) (h2 : ¬ ent.pose.x - ent.radius ≤ 0)
    (h3 : ¬ ent.pose.y + ent.radius ≥ H) (h4 : ¬ ent.pose.y - ent.radius ≤ 0) :
    GetCollisionWall W H ent = EntityType.kUndefined := by
  unfold GetCollisionWall
  rw [if_neg h1, if_neg h2, if_neg h3, if_neg h4]

/-- One round of detection and resolution: the radius is kept; a reported right or left wall
changes only x, a reported bottom or top wall changes only y. -/
theorem ResolveWallOverlap_cases (W H : α) (ent : ArenaEntity α σ) :
    (ent.pose.x + ent.radius ≥ W →
      ResolveWallOverlap W H ent = ent.set_position (W - (ent.radius + 5)) ent.pose.y) ∧
    (¬ ent.pose.x + ent.radius ≥ W → ent.pose.x - ent.radius ≤ 0 →
      ResolveWallOverlap W H ent = ent.set_position (ent.radius + 5) ent.pose.y) ∧
    (¬ ent.pose.x + ent.radius ≥ W → ¬ ent.pose.x - ent.radius ≤ 0 →
      ent.pose.y + ent.radius ≥ H →
      ResolveWallOverlap W H ent = ent.set_position ent.pose.x (H - (ent.radius + 5))) ∧
    (¬ ent.pose.x + ent.radius ≥ W → ¬ ent.pose.x - ent.radius ≤ 0 →
      ¬ ent.pose.y + ent.radius ≥ H → ent.pose.y - ent.radius ≤ 0 →
      ResolveWallOverlap W H ent = ent.set_position ent.pose.x (ent.radius + 5)) ∧
    (¬ ent.pose.x + ent.radius ≥ W → ¬ ent.pose.x - ent.radius ≤ 0 →
      ¬ ent.pose.y + ent.radius ≥ H → ¬ ent.pose.y - ent.radius ≤ 0 →
      ResolveWallOverlap W H ent = ent) := by
  refine ⟨?_, ?_, ?_, ?_, ?_⟩
  · intro h
    simp [ResolveWallOverlap, GetCollisionWall_right W H ent h, AdjustWallOverlap]
  · intro h1 h2
    simp [ResolveWallOverlap, GetCollisionWall_left W H ent h1 h2, AdjustWallOverlap]
  · intro h1 h2 h3
    simp [ResolveWallOverlap, GetCollisionWall_bottom W H ent h1 h2 h3, AdjustWallOverlap]
  · intro h1 h2 h3 h4
    simp [ResolveWallOverlap, GetCollisionWall_top W H ent h1 h2 h3 h4, AdjustWallOverlap]
  · intro h1 h2 h3 h4
    simp [ResolveWallOverlap, GetCollisionWall_none W H ent h1 h2 h3 h4]

/-- One round of detection and resolution in an arena larger than the diameter plus the
margin: afterwards x is clear of both side walls, and if x was clear before, y is clear of
the bottom and top walls as well. -/
theorem ResolveWallOverlap_progress (W H r : α) (ent : ArenaEntity α σ) (hrad : ent.radius = r)
    (hW : 2 * r + 5 < W) (hH : 2 * r + 5 < H) :
    (ResolveWallOverlap W H ent).radius = r ∧
    (¬ (ResolveWallOverlap W H ent).pose.x + r ≥ W ∧
      ¬ (ResolveWallOverlap W H ent).pose.x - r ≤ 0) ∧
    ((¬ ent.pose.x + r ≥ W ∧ ¬ ent.pose.x - r ≤ 0) →
      ¬ (ResolveWallOverlap W H ent).pose.y + r ≥ H ∧
      ¬ (ResolveWallOverlap W H ent).pose.y - r ≤ 0) := by
  subst hrad
  obtain ⟨c1, c2, c3, c4, c5⟩ := ResolveWallOverlap_cases W H ent
  by_cases h1 : ent.pose.x + ent.radius ≥ W
  · rw [c1 h1]
    simp only [ArenaEntity.set_position, not_le, ge_iff_le]
    refine ⟨trivial, ⟨by linarith, by linarith⟩, fun h => ?_⟩
    exact absurd h1 (by simpa using h.1)
  by_cases h2 : ent.pose.x - ent.radius ≤ 0
  · rw [c2 h1 h2]
    simp only [ArenaEntity.set_position, not_le, ge_iff_le]
    refine ⟨trivial, ⟨by linarith, by linarith⟩, fun h => ?_⟩
    exact absurd h2 (by simpa using h.2)
  by_cases h3 : ent.pose.y + ent.radius ≥ H
  · rw [c3 h1 h2 h3]
    simp only [ArenaEntity.set_position, not_le, ge_iff_le] at h1 h2 ⊢
    exact ⟨trivial, ⟨h1, h2⟩, fun _ => ⟨by linarith, by linarith⟩⟩
  by_cases h4 : ent.pose.y - ent.radius ≤ 0
  · rw [c4 h1 h2 h3 h4]
    simp only [ArenaEntity.set_position, not_le, ge_iff_le] at h1 h2 ⊢
    exact ⟨trivial, ⟨h1, h2⟩, fun _ => ⟨by linarith, by linarith⟩⟩
  · rw [c5 h1 h2 h3 h4]
    exact ⟨rfl, ⟨h1, h2⟩, fun _ => ⟨h3, h4⟩⟩

/-- C1: `GetCollisionWall` reports the first matching wall in the order right, left, bottom,
top, and `kUndefined` exactly when no wall condition holds; a robot at (2, 50) with radius 5
in a 100-wide arena reports the left wall, whatever the height. -/
theorem GetCollisionWall_first_match :
    (∀ (W H : α) (ent : ArenaEntity α σ),
      (GetCollisionWall W H ent = EntityType.kRightWall ↔ ent.pose.x + ent.radius ≥ W) ∧
      (GetCollisionWall W H ent = EntityType.kLeftWall ↔
        ¬ ent.pose.x + ent.radius ≥ W ∧ ent.pose.x - ent.radius ≤ 0) ∧
      (GetCollisionWall W H ent = EntityType.kBottomWall ↔
        ¬ ent.pose.x + ent.radius ≥ W ∧ ¬ ent.pose.x - ent.radius ≤ 0 ∧
          ent.pose.y + ent.radius ≥ H) ∧
      (GetCollisionWall W H ent = EntityType.kTopWall ↔
        ¬ ent.pose.x + ent.radius ≥ W ∧ ¬ ent.pose.x - ent.radius ≤ 0 ∧
          ¬ ent.pose.y + ent.radius ≥ H ∧ ent.pose.y - ent.radius ≤ 0) ∧
      (GetCollisionWall W H ent = EntityType.kUndefined ↔
        ¬ ent.pose.x + ent.radius ≥ W ∧ ¬ ent.pose.x - ent.radius ≤ 0 ∧
          ¬ ent.pose.y + ent.radius ≥ H ∧ ¬ ent.pose.y - ent.radius ≤ 0)) ∧
    (∀ (H : α) (t : EntityType) (l n : Int) (s : σ),
      GetCollisionWall (100 : α) H
        ({ type := t, pose := ⟨2, 50⟩, radius := 5, lives := l, num_bases_captured := n,
           internal := s } : ArenaEntity α σ) = EntityType.kLeftWall) := by
  refine ⟨?_, ?_⟩
  · intro W H ent
    unfold GetCollisionWall
    refine ⟨?_, ?_, ?_, ?_, ?_⟩ <;> split_ifs <;> simp_all
  · intro H t l n s
    unfold GetCollisionWall
    norm_num

/-- C2: `AdjustWallOverlap` moves the entity to `(W - r - 5, y)` for the right wall,
`(r + 5, y)` for the left wall, `(x, H - r - 5)` for the bottom wall and `(x, r + 5)` for the
top wall, changing nothing but the position, and returns the entity unchanged for every tag
that is not a wall; on the left wall with radius 5 the new x is 10. -/
theorem AdjustWallOverlap_position :
    (∀ (W H : α) (ent : ArenaEntity α σ),
      AdjustWallOverlap W H ent EntityType.kRightWall
        = { ent with pose := ⟨W - ent.radius - 5, ent.pose.y⟩ } ∧
      AdjustWallOverlap W H ent EntityType.kLeftWall
        = { ent with pose := ⟨ent.radius + 5, ent.pose.y⟩ } ∧
      AdjustWallOverlap W H ent EntityType.kBottomWall
        = { ent with pose := ⟨ent.pose.x, H - ent.radius - 5⟩ } ∧
      AdjustWallOverlap W H ent EntityType.kTopWall
        = { ent with pose := ⟨ent.pose.x, ent.radius + 5⟩ } ∧
      AdjustWallOverlap W H ent EntityType.kUndefined = ent ∧
      AdjustWallOverlap W H ent EntityType.kRobot = ent ∧
      AdjustWallOverlap W H ent EntityType.kObstacle = ent ∧
      AdjustWallOverlap W H ent EntityType.kBase = ent ∧
      (∀ w : EntityType, (AdjustWallOverlap W H ent w).radius = ent.radius)) ∧
    (∀ (W H : α) (t : EntityType) (l n : Int) (s : σ),
      (AdjustWallOverlap W H
        ({ type := t, pose := ⟨2, 50⟩, radius := 5, lives := l, num_bases_captured := n,
           internal := s } : ArenaEntity α σ) EntityType.kLeftWall).pose = ⟨10, 50⟩) := by
  refine ⟨?_, ?_⟩
  · intro W H ent
    refine ⟨?_, rfl, ?_, rfl, rfl, rfl, rfl, rfl, ?_⟩
    · simp [AdjustWallOverlap, ArenaEntity.set_position, sub_sub]
    · simp [AdjustWallOverlap, ArenaEntity.set_position, sub_sub]
    · intro w
      cases w <;> rfl
  · intro W H t l n s
    simp only [AdjustWallOverlap, ArenaEntity.set_position]
    norm_num

/-- C5 (as stated, refuted): in an arena 8 wide and 100 high, an entity of radius 5 at
(50, 50) is moved to x = -2 by the first detection and resolution and to x = 10 by the
second, and `GetCollisionWall` then reports the right wall again. -/
theorem ResolveWallOverlap_twice_small_arena :
    (0 : ℚ) < 8 ∧ (0 : ℚ) < 100 ∧ (0 : ℚ) ≤ 5 ∧
    GetCollisionWall (8 : ℚ) 100
      (ResolveWallOverlap (8 : ℚ) 100
        (ResolveWallOverlap (8 : ℚ) 100
          ({ type := EntityType.kRobot, pose := ⟨50, 50⟩, radius := 5, lives := 0,
             num_bases_captured := 0, internal := () } : ArenaEntity ℚ Unit)))
      = EntityType.kRightWall := by
  refine ⟨by norm_num, by norm_num, by norm_num, ?_⟩
  have s1 := (ResolveWallOverlap_cases (8 : ℚ) 100
    ({ type := EntityType.kRobot, pose := ⟨50, 50⟩, radius := 5, lives := 0,
       num_bases_captured := 0, internal := () } : ArenaEntity ℚ Unit)).1 (by norm_num)
  rw [s1]
  have s2 := (ResolveWallOverlap_cases (8 : ℚ) 100
    ({ type := EntityType.kRobot, pose := ⟨8 - (5 + 5), 50⟩, radius := 5, lives := 0,
       num_bases_captured := 0, internal := () } : ArenaEntity ℚ Unit)).2.1
    (by norm_num) (by norm_num)
  simp only [ArenaEntity.set_position] at s2 ⊢
  rw [s2]
  apply GetCollisionWall_right
  norm_num

/-- C5 (amended): when the arena is wider and higher than the entity's diameter plus the
margin (`2 r + 5 < W` and `2 r + 5 < H`), two rounds of detection and resolution leave the
entity strictly inside: a further `GetCollisionWall` reports `kUndefined`. -/
theorem ResolveWallOverlap_twice_inside (W H : α) (ent : ArenaEntity α σ)
    (hr : 0 ≤ ent.radius) (hW : 2 * ent.radius + 5 < W) (hH : 2 * ent.radius + 5 < H) :
    GetCollisionWall W H (ResolveWallOverlap W H (ResolveWallOverlap W H ent))
      = EntityType.kUndefined := by
  have _ := hr
  obtain ⟨r1, x1, _⟩ := ResolveWallOverlap_progress W H ent.radius ent rfl hW hH
  obtain ⟨_, x2, y2⟩ :=
    ResolveWallOverlap_progress W H ent.radius (ResolveWallOverlap W H ent) r1 hW hH
  have r2 : (ResolveWallOverlap W H (ResolveWallOverlap W H ent)).radius = ent.radius :=
    (ResolveWallOverlap_progress W H ent.radius (ResolveWallOverlap W H ent) r1 hW hH).1
  have y2' := y2 x1
  apply GetCollisionWall_none
  · rw [r2]; exact x2.1
  · rw [r2]; exact x2.2
  · rw [r2]; exact y2'.1
  · rw [r2]; exact y2'.2

/-- C5 (amended), at an instance: arena 100 by 100, radius 5, entity at (200, 200). -/
theorem ResolveWallOverlap_twice_inside_witness :
    (0 : ℚ) ≤ 5 ∧ 2 * (5 : ℚ) + 5 < 100 ∧ 2 * (5 : ℚ) + 5 < 100 ∧
    GetCollisionWall (100 : ℚ) 100
      (ResolveWallOverlap (100 : ℚ) 100
        (ResolveWallOverlap (100 : ℚ) 100
          ({ type := EntityType.kRobot, pose := ⟨200, 200⟩, radius := 5, lives := 0,
             num_bases_captured := 0, internal := () } : ArenaEntity ℚ Unit)))
      = EntityType.kUndefined :=
  ⟨by norm_num, by norm_num, by norm_num,
    ResolveWallOverlap_twice_inside (100 : ℚ) 100
      ({ type := EntityType.kRobot, pose := ⟨200, 200⟩, radius := 5, lives := 0,
         num_bases_captured := 0, internal := () } : ArenaEntity ℚ Unit)
      (by norm_num) (by norm_num) (by norm_num)⟩

end WallTheorems

/-! ## Entity collision detection and resolution -/

section EntityTheorems

variable {σ : Type}

theorem IsColliding_iff_sqrt (m o : ArenaEntity ℝ σ) :
    IsColliding m o = true ↔
      Real.sqrt ((o.pose.x - m.pose.x) * (o.pose.x - m.pose.x)
        + (o.pose.y - m.pose.y) * (o.pose.y - m.pose.y)) ≤ m.radius + o.radius := by
  simp [IsColliding]

theorem centreDistance_eq (m o : ArenaEntity ℝ σ) :
    centreDistance m o =
      Real.sqrt ((o.pose.x - m.pose.x) * (o.pose.x - m.pose.x)
        + (o.pose.y - m.pose.y) * (o.pose.y - m.pose.y)) := by
  simp [centreDistance, sq]

theorem IsColliding_iff_sq_le (m o : ArenaEntity ℝ σ)
    (h1 : 0 ≤ m.radius) (h2 : 0 ≤ o.radius) :
    IsColliding m o = true ↔
      (o.pose.x - m.pose.x) ^ 2 + (o.pose.y - m.pose.y) ^ 2 ≤ (m.radius + o.radius) ^ 2 := by
  rw [IsColliding_iff_sqrt, ← centreDistance_eq, centreDistance, Real.sqrt_le_iff]
  exact ⟨fun h => h.2, fun h => ⟨add_nonneg h1 h2, h⟩⟩

theorem sqrt_one_add_sq_div (dx dy : ℝ) (h : dx ≠ 0) :
    Real.sqrt (1 + (dy / dx) ^ 2) = Real.sqrt (dx * dx + dy * dy) / |dx| := by
  rw [show 1 + (dy / dx) ^ 2 = (dx * dx + dy * dy) / dx ^ 2 by field_simp; ring,
    Real.sqrt_div (add_nonneg (mul_self_nonneg dx) (mul_self_nonneg dy)), Real.sqrt_sq_eq_abs]

theorem sqrt_pos_of_ne_zero (dx dy : ℝ) (h : dx ≠ 0) : 0 < Real.sqrt (dx * dx + dy * dy) := by
  apply Real.sqrt_pos.mpr
  have : 0 < dx * dx := mul_self_pos.mpr h
  nlinarith [mul_self_nonneg dy]

/-- With `delta_x > 0` the angle `atan(delta_y / delta_x)` is the direction from the mobile
entity to the other entity. -/
theorem cos_sin_arctan_div_of_pos (dx dy : ℝ) (h : 0 < dx) :
    Real.cos (Real.arctan (dy / dx)) = dx / Real.sqrt (dx * dx + dy * dy) ∧
    Real.sin (Real.arctan (dy / dx)) = dy / Real.sqrt (dx * dx + dy * dy) := by
  have hd := sqrt_pos_of_ne_zero dx dy h.ne'
  rw [Real.cos_arctan, Real.sin_arctan, sqrt_one_add_sq_div dx dy h.ne', abs_of_pos h]
  constructor <;> field_simp

/-- With `delta_x < 0` the angle `atan(delta_y / delta_x)` is the direction from the other
entity to the mobile entity. -/
theorem cos_sin_arctan_div_of_neg (dx dy : ℝ) (h : dx < 0) :
    Real.cos (Real.arctan (dy / dx)) = -dx / Real.sqrt (dx * dx + dy * dy) ∧
    Real.sin (Real.arctan (dy / dx)) = -dy / Real.sqrt (dx * dx + dy * dy) := by
  have hd := sqrt_pos_of_ne_zero dx dy h.ne
  have hne : dx ≠ 0 := h.ne
  rw [Real.cos_arctan, Real.sin_arctan, sqrt_one_add_sq_div dx dy h.ne, abs_of_neg h]
  constructor
  · field_simp
  · field_simp
    ring

/-- With `delta_x > 0`, `AdjustEntityOverlap` leaves the centres `|2 d - (r1 + r2)|` apart,
where `d` is their distance before the call. -/
theorem AdjustEntityOverlap_centreDistance_of_pos (m o : ArenaEntity ℝ σ)
    (hdx : 0 < o.pose.x - m.pose.x) :
    centreDistance (AdjustEntityOverlap m o) o
      = |2 * centreDistance m o - (m.radius + o.radius)| := by
  obtain ⟨hcos, hsin⟩ := cos_sin_arctan_div_of_pos (o.pose.x - m.pose.x)
    (o.pose.y - m.pose.y) hdx
  have hd := sqrt_pos_of_ne_zero (o.pose.x - m.pose.x) (o.pose.y - m.pose.y) hdx.ne'
  have hd2 : Real.sqrt ((o.pose.x - m.pose.x) * (o.pose.x - m.pose.x)
      + (o.pose.y - m.pose.y) * (o.pose.y - m.pose.y)) ^ 2
      = (o.pose.x - m.pose.x) * (o.pose.x - m.pose.x)
        + (o.pose.y - m.pose.y) * (o.pose.y - m.pose.y) :=
    Real.sq_sqrt (by nlinarith [mul_self_nonneg (o.pose.x - m.pose.x),
      mul_self_nonneg (o.pose.y - m.pose.y)])
  rw [centreDistance_eq m o, ← Real.sqrt_sq_eq_abs]
  unfold centreDistance AdjustEntityOverlap ArenaEntity.set_position
  simp only [hcos, hsin]
  congr 1
  generalize Real.sqrt ((o.pose.x - m.pose.x) * (o.pose.x - m.pose.x)
      + (o.pose.y - m.pose.y) * (o.pose.y - m.pose.y)) = d at hd hd2 ⊢
  field_simp
  have e : (o.pose.x - m.pose.x) ^ 2 + (o.pose.y - m.pose.y) ^ 2 = d ^ 2 := by
    rw [hd2]; ring
  nlinarith [e]

/-- With `delta_x > 0`, a strictly overlapping pair is still strictly overlapping after
`AdjustEntityOverlap`. -/
theorem AdjustEntityOverlap_still_overlapping (m o : ArenaEntity ℝ σ)
    (hdx : 0 < o.pose.x - m.pose.x) (hov : centreDistance m o < m.radius + o.radius) :
    centreDistance (AdjustEntityOverlap m o) o < m.radius + o.radius := by
  rw [AdjustEntityOverlap_centreDistance_of_pos m o hdx, abs_lt]
  have hd : 0 < centreDistance m o := by
    rw [centreDistance_eq]
    exact sqrt_pos_of_ne_zero _ _ hdx.ne'
  constructor <;> linarith

/-- C3: for non-negative radii `IsColliding` holds exactly when the distance between the
centres is at most the sum of the radii, equivalently when `dx^2 + dy^2 <= (r1 + r2)^2`; in
particular two tangent entities collide. -/
theorem IsColliding_iff_distance (m o : ArenaEntity ℝ σ)
    (h1 : 0 ≤ m.radius) (h2 : 0 ≤ o.radius) :
    (IsColliding m o = true ↔ centreDistance m o ≤ m.radius + o.radius) ∧
    (IsColliding m o = true ↔
      (o.pose.x - m.pose.x) ^ 2 + (o.pose.y - m.pose.y) ^ 2 ≤ (m.radius + o.radius) ^ 2) ∧
    (centreDistance m o = m.radius + o.radius → IsColliding m o = true) := by
  have e1 : IsColliding m o = true ↔ centreDistance m o ≤ m.radius + o.radius := by
    rw [IsColliding_iff_sqrt, centreDistance_eq]
  exact ⟨e1, IsColliding_iff_sq_le m o h1 h2, fun h => e1.mpr (le_of_eq h)⟩

/-- C3 at an instance: two entities of radius 1 whose centres are 2 apart are tangent and
collide. -/
theorem IsColliding_iff_distance_witness :
    (0 : ℝ) ≤ 1 ∧
    IsColliding
      ({ type := EntityType.kRobot, pose := ⟨0, 0⟩, radius := 1, lives := 0,
         num_bases_captured := 0, internal := () } : ArenaEntity ℝ Unit)
      ({ type := EntityType.kBase, pose := ⟨2, 0⟩, radius := 1, lives := 0,
         num_bases_captured := 0, internal := () } : ArenaEntity ℝ Unit) = true :=
  ⟨by norm_num,
    (IsColliding_iff_distance
      ({ type := EntityType.kRobot, pose := ⟨0, 0⟩, radius := 1, lives := 0,
         num_bases_captured := 0, internal := () } : ArenaEntity ℝ Unit)
      ({ type := EntityType.kBase, pose := ⟨2, 0⟩, radius := 1, lives := 0,
         num_bases_captured := 0, internal := () } : ArenaEntity ℝ Unit)
      (by norm_num) (by norm_num)).2.1.mpr (by norm_num)⟩

/-- C4 (the code at a failing input): a mobile entity of radius 5 at (0, 0) overlapping an
entity of radius 5 at (6, 0) is moved by `AdjustEntityOverlap` to (4, 0), towards the other
entity; the centres are then 2 apart, less than the sum 10 of the radii, and the pair still
collides. -/
theorem AdjustEntityOverlap_moves_towards :
    IsColliding
      ({ type := EntityType.kRobot, pose := ⟨0, 0⟩, radius := 5, lives := 0,
         num_bases_captured := 0, internal := () } : ArenaEntity ℝ Unit)
      ({ type := EntityType.kBase, pose := ⟨6, 0⟩, radius := 5, lives := 0,
         num_bases_captured := 0, internal := () } : ArenaEntity ℝ Unit) = true ∧
    (AdjustEntityOverlap
      ({ type := EntityType.kRobot, pose := ⟨0, 0⟩, radius := 5, lives := 0,
         num_bases_captured := 0, internal := () } : ArenaEntity ℝ Unit)
      ({ type := EntityType.kBase, pose := ⟨6, 0⟩, radius := 5, lives := 0,
         num_bases_captured := 0, internal := () } : ArenaEntity ℝ Unit)).pose = ⟨4, 0⟩ ∧
    centreDistance
      (AdjustEntityOverlap
        ({ type := EntityType.kRobot, pose := ⟨0, 0⟩, radius := 5, lives := 0,
           num_bases_captured := 0, internal := () } : ArenaEntity ℝ Unit)
        ({ type := EntityType.kBase, pose := ⟨6, 0⟩, radius := 5, lives := 0,
           num_bases_captured := 0, internal := () } : ArenaEntity ℝ Unit))
      ({ type := EntityType.kBase, pose := ⟨6, 0⟩, radius := 5, lives := 0,
         num_bases_captured := 0, internal := () } : ArenaEntity ℝ Unit) = 2 ∧
    (2 : ℝ) < 5 + 5 := by
  have h36 : Real.sqrt ((6 - 0) * (6 - 0) + (0 - 0) * (0 - 0) : ℝ) = 6 := by
    rw [show ((6 - 0) * (6 - 0) + (0 - 0) * (0 - 0) : ℝ) = 6 ^ 2 by norm_num]
    exact Real.sqrt_sq (by norm_num)
  have hpose : (AdjustEntityOverlap
      ({ type := EntityType.kRobot, pose := ⟨0, 0⟩, radius := 5, lives := 0,
         num_bases_captured := 0, internal := () } : ArenaEntity ℝ Unit)
      ({ type := EntityType.kBase, pose := ⟨6, 0⟩, radius := 5, lives := 0,
         num_bases_captured := 0, internal := () } : ArenaEntity ℝ Unit)).pose = ⟨4, 0⟩ := by
    simp only [AdjustEntityOverlap, ArenaEntity.set_position, h36]
    norm_num
  refine ⟨?_, hpose, ?_, by norm_num⟩
  · rw [IsColliding_iff_sqrt]
    simp only [h36]
    norm_num
  · rw [centreDistance, hpose]
    rw [show ((6 - 4 : ℝ) ^ 2 + (0 - 0) ^ 2) = 2 ^ 2 by norm_num]
    exact Real.sqrt_sq (by norm_num)

end EntityTheorems

/-! ## The timestep pipeline -/

section PipelineTheorems

variable {σ : Type}

theorem CollisionFrame.refl (ms : List Nat) (a : Arena σ) : CollisionFrame ms a a :=
  ⟨rfl, rfl, rfl, rfl, rfl, rfl, [], by simp, by simp⟩

theorem CollisionFrame.trans {ms : List Nat} {a b d : Arena σ}
    (h1 : CollisionFrame ms a b) (h2 : CollisionFrame ms b d) : CollisionFrame ms a d := by
  obtain ⟨x1, y1, m1, r1, g1, l1, rest1, c1, p1⟩ := h1
  obtain ⟨x2, y2, m2, r2, g2, l2, rest2, c2, p2⟩ := h2
  refine ⟨x2.trans x1, y2.trans y1, m2.trans m1, r2.trans r1, g2.trans g1, l2.trans l1,
    rest1 ++ rest2, ?_, ?_⟩
  · rw [c2, c1, List.append_assoc]
  · intro e he
    rcases List.mem_append.mp he with h | h
    · exact p1 e h
    · exact p2 e h

theorem CollisionFrame.foldl {β : Type} (ms : List Nat) (f : Arena σ → β → Arena σ)
    (l : List β) (hf : ∀ (a : Arena σ) (x : β), x ∈ l → CollisionFrame ms a (f a x))
    (a : Arena σ) : CollisionFrame ms a (l.foldl f a) := by
  induction l generalizing a with
  | nil => exact CollisionFrame.refl ms a
  | cons x xs ih =>
    rw [List.foldl_cons]
    exact CollisionFrame.trans (hf a x (List.mem_cons_self x xs))
      (ih (fun a y hy => hf a y (List.mem_cons_of_mem x hy)) (f a x))

theorem collideWall_frame (c : EntityContract σ) (ms : List Nat) (a : Arena σ) (i : Nat)
    (hi : i ∈ ms) : CollisionFrame ms a (collideWall c a i) := by
  unfold collideWall
  cases h : a.entities[i]? with
  | none => exact CollisionFrame.refl ms a
  | some ent1 =>
    simp only
    split_ifs with hw
    · refine ⟨rfl, rfl, rfl, rfl, rfl, by simp, _, rfl, ?_⟩
      intro e he
      rw [List.mem_singleton] at he
      exact ⟨i, _, none, he, hi⟩
    · exact CollisionFrame.refl ms a

theorem collideEntity_frame (c : EntityContract σ) (ms : List Nat) (a : Arena σ) (i j : Nat)
    (hi : i ∈ ms) : CollisionFrame ms a (collideEntity c i a j) := by
  unfold collideEntity
  split_ifs with hji
  · exact CollisionFrame.refl ms a
  · split
    · rename_i ent1 ent2 _ _
      split_ifs with hc
      · refine ⟨rfl, rfl, rfl, rfl, rfl, by simp, _, rfl, ?_⟩
        intro e he
        rw [List.mem_singleton] at he
        exact ⟨i, _, some j, he, hi⟩
      · exact CollisionFrame.refl ms a
    · exact CollisionFrame.refl ms a

theorem collideMobile_frame (c : EntityContract σ) (ms : List Nat) (a : Arena σ) (i : Nat)
    (hi : i ∈ ms) : CollisionFrame ms a (collideMobile c a i) := by
  unfold collideMobile
  exact CollisionFrame.trans (collideWall_frame c ms a i hi)
    (CollisionFrame.foldl ms _ _ (fun b j _ => collideEntity_frame c ms b i j hi) _)

/-- The collision loop of a tick, from any arena `a` and over any list `ms` of mobile
entities. -/
theorem collisionLoop_frame (c : EntityContract σ) (ms : List Nat) (a : Arena σ) :
    CollisionFrame ms a (ms.foldl (collideMobile c) a) :=
  CollisionFrame.foldl ms _ ms (fun b i hi => collideMobile_frame c ms b i hi) a

theorem callTimestepUpdate_spec (c : EntityContract σ) (a : Arena σ) (i : Nat)
    (hi : i < a.entities.length) :
    (callTimestepUpdate c a i).x_dim = a.x_dim ∧
    (callTimestepUpdate c a i).y_dim = a.y_dim ∧
    (callTimestepUpdate c a i).mobile_entities = a.mobile_entities ∧
    (callTimestepUpdate c a i).robot = a.robot ∧
    (callTimestepUpdate c a i).game_status = a.game_status ∧
    (callTimestepUpdate c a i).entities.length = a.entities.length ∧
    (callTimestepUpdate c a i).calls = a.calls ++ [HookCall.TimestepUpdate i 1] := by
  unfold callTimestepUpdate
  rw [List.getElem?_eq_getElem hi]
  simp

/-- The update loop calls `TimestepUpdate(1)` once on every index of the list it runs
over, in order, and touches nothing but the entities' states. -/
theorem foldl_callTimestepUpdate_spec (c : EntityContract σ) (l : List Nat) (a : Arena σ)
    (hl : ∀ i ∈ l, i < a.entities.length) :
    (l.foldl (callTimestepUpdate c) a).x_dim = a.x_dim ∧
    (l.foldl (callTimestepUpdate c) a).y_dim = a.y_dim ∧
    (l.foldl (callTimestepUpdate c) a).mobile_entities = a.mobile_entities ∧
    (l.foldl (callTimestepUpdate c) a).robot = a.robot ∧
    (l.foldl (callTimestepUpdate c) a).game_status = a.game_status ∧
    (l.foldl (callTimestepUpdate c) a).entities.length = a.entities.length ∧
    (l.foldl (callTimestepUpdate c) a).calls
      = a.calls ++ l.map (fun i => HookCall.TimestepUpdate i 1) := by
  induction l generalizing a with
  | nil => simp
  | cons i is ih =>
    obtain ⟨x1, y1, m1, r1, g1, l1, c1⟩ :=
      callTimestepUpdate_spec c a i (hl i (List.mem_cons_self i is))
    have hl2 : ∀ k ∈ is, k < (callTimestepUpdate c a i).entities.length := by
      intro k hk
      rw [l1]
      exact hl k (List.mem_cons_of_mem i hk)
    obtain ⟨x2, y2, m2, r2, g2, l2, c2⟩ := ih (callTimestepUpdate c a i) hl2
    rw [List.foldl_cons]
    refine ⟨x2.trans x1, y2.trans y1, m2.trans m1, r2.trans r1, g2.trans g1, l2.trans l1, ?_⟩
    rw [c2, c1, List.map_cons, List.append_assoc, List.singleton_append]

theorem updateEntities_spec (c : EntityContract σ) (a : Arena σ) :
    (updateEntities c a).x_dim = a.x_dim ∧
    (updateEntities c a).y_dim = a.y_dim ∧
    (updateEntities c a).mobile_entities = a.mobile_entities ∧
    (updateEntities c a).robot = a.robot ∧
    (updateEntities c a).game_status = a.game_status ∧
    (updateEntities c a).entities.length = a.entities.length ∧
    (updateEntities c a).calls
      = a.calls ++ (List.range a.entities.length).map (fun i => HookCall.TimestepUpdate i 1) :=
  foldl_callTimestepUpdate_spec c _ a (fun _ hi => List.mem_range.mp hi)

theorem checkWinLoss_spec (N_BASES : Int) (a : Arena σ) :
    (checkWinLoss N_BASES a).x_dim = a.x_dim ∧
    (checkWinLoss N_BASES a).y_dim = a.y_dim ∧
    (checkWinLoss N_BASES a).mobile_entities = a.mobile_entities ∧
    (checkWinLoss N_BASES a).robot = a.robot ∧
    (checkWinLoss N_BASES a).entities = a.entities ∧
    (checkWinLoss N_BASES a).calls = a.calls := by
  unfold checkWinLoss
  cases a.entities[a.robot]? with
  | none => simp
  | some r =>
    simp only
    split_ifs <;> simp

theorem AdvanceTime_pos (c : EntityContract σ) (N_BASES : Int) (dt : Double) (a : Arena σ)
    (h : dt.gtZero = true) : AdvanceTime c N_BASES dt a = UpdateEntitiesTimestep c N_BASES a := by
  simp [AdvanceTime, h, List.range_succ]

theorem callTimestepUpdate_getElem? (c : EntityContract σ) (a : Arena σ) (i j : Nat) :
    (callTimestepUpdate c a i).entities[j]?
      = if i = j then (a.entities[j]?).map (fun e => c.TimestepUpdate e 1)
        else a.entities[j]? := by
  unfold callTimestepUpdate
  cases h : a.entities[i]? with
  | none =>
    simp only
    split_ifs with hij
    · subst hij
      simp [h]
    · rfl
  | some ent =>
    simp only [List.getElem?_set]
    split_ifs with hij hlt
    · subst hij
      simp [h]
    · subst hij
      rw [List.getElem?_eq_none (by omega)] at h
      cases h
    · rfl

theorem foldl_callTimestepUpdate_getElem? (c : EntityContract σ) (k : Nat) (a : Arena σ)
    (j : Nat) :
    ((List.range k).foldl (callTimestepUpdate c) a).entities[j]?
      = if j < k then (a.entities[j]?).map (fun e => c.TimestepUpdate e 1)
        else a.entities[j]? := by
  induction k with
  | zero => simp
  | succ k ih =>
    rw [List.range_succ, List.foldl_append, List.foldl_cons, List.foldl_nil,
      callTimestepUpdate_getElem?, ih]
    by_cases hkj : k = j
    · subst hkj
      simp
    · by_cases hlt : j < k
      · simp [hkj, hlt, Nat.lt_succ_of_lt hlt]
      · have : ¬ j < k + 1 := by omega
        simp [hkj, hlt, this]

/-- The update loop replaces every entity by its state after `TimestepUpdate(1)`. -/
theorem updateEntities_entities (c : EntityContract σ) (a : Arena σ) :
    (updateEntities c a).entities = a.entities.map (fun e => c.TimestepUpdate e 1) := by
  apply List.ext_getElem?
  intro j
  unfold updateEntities
  rw [foldl_callTimestepUpdate_getElem?, List.getElem?_map]
  split_ifs with h
  · rfl
  · rw [List.getElem?_eq_none (by omega)]
    rfl

/-- The status after a tick is the one the win/loss check leaves. -/
theorem UpdateEntitiesTimestep_game_status (c : EntityContract σ) (N_BASES : Int)
    (a : Arena σ) :
    (UpdateEntitiesTimestep c N_BASES a).game_status
      = (checkWinLoss N_BASES (updateEntities c a)).game_status := by
  unfold UpdateEntitiesTimestep
  exact (collisionLoop_frame c _ _).2.2.2.2.1

theorem checkWinLoss_game_status (N_BASES : Int) (a : Arena σ) (robot : ArenaEntity ℝ σ)
    (hr : a.entities[a.robot]? = some robot) :
    (checkWinLoss N_BASES a).game_status
      = if robot.num_bases_captured = N_BASES then GameStatus.WON
        else if robot.lives = 0 then GameStatus.LOST else a.game_status := by
  unfold checkWinLoss
  rw [hr]
  simp only
  split_ifs <;> rfl

/-- The calls a tick records: one `TimestepUpdate(1)` per entity in creation order, then
only `HandleCollision` calls received by mobile entities. -/
theorem UpdateEntitiesTimestep_calls (c : EntityContract σ) (N_BASES : Int) (a : Arena σ) :
    ∃ rest : List HookCall,
      (UpdateEntitiesTimestep c N_BASES a).calls
        = a.calls ++ (List.range a.entities.length).map (fun i => HookCall.TimestepUpdate i 1)
          ++ rest ∧
      ∀ e ∈ rest, ∃ i t o, e = HookCall.HandleCollision i t o ∧ i ∈ a.mobile_entities := by
  obtain ⟨_, _, m1, _, _, _, c1⟩ := updateEntities_spec c a
  obtain ⟨_, _, m2, _, _, c2⟩ := checkWinLoss_spec N_BASES (updateEntities c a)
  obtain ⟨_, _, _, _, _, _, rest, c3, p3⟩ :=
    collisionLoop_frame c (checkWinLoss N_BASES (updateEntities c a)).mobile_entities
      (checkWinLoss N_BASES (updateEntities c a))
  refine ⟨rest, ?_, ?_⟩
  · unfold UpdateEntitiesTimestep
    simp only
    rw [c3, c2, c1]
  · intro e he
    obtain ⟨i, t, o, h1, h2⟩ := p3 e he
    exact ⟨i, t, o, h1, by rw [← m1, ← m2]; exact h2⟩

/-- C6: when `dt` is not strictly positive, `AdvanceTime(dt)` returns the arena as it was:
every entity, the game status, the robot's counters and the record of calls are unchanged.
A NaN, minus infinity and every finite `v <= 0` are not strictly positive. -/
theorem AdvanceTime_not_positive (c : EntityContract σ) (N_BASES : Int) (dt : Double)
    (a : Arena σ) (h : dt.gtZero = false) :
    AdvanceTime c N_BASES dt a = a ∧
    Double.nan.gtZero = false ∧ Double.negInf.gtZero = false ∧
    ∀ v : ℚ, v ≤ 0 → (Double.finite v).gtZero = false := by
  refine ⟨?_, rfl, rfl, ?_⟩
  · simp [AdvanceTime, h]
  · intro v hv
    simp [Double.gtZero, hv]

/-- C6 at instances: a NaN step, a zero step and a negative step on an arena leave it as
it was. -/
theorem AdvanceTime_not_positive_witness :
    Double.nan.gtZero = false ∧ (Double.finite 0).gtZero = false ∧
    (Double.finite (-3)).gtZero = false ∧
    AdvanceTime exampleContract 1 Double.nan captureArena = captureArena ∧
    AdvanceTime exampleContract 1 (Double.finite 0) captureArena = captureArena ∧
    AdvanceTime exampleContract 1 (Double.finite (-3)) captureArena = captureArena :=
  ⟨rfl, by simp [Double.gtZero], by simp [Double.gtZero],
    (AdvanceTime_not_positive exampleContract 1 Double.nan captureArena rfl).1,
    (AdvanceTime_not_positive exampleContract 1 (Double.finite 0) captureArena
      (by simp [Double.gtZero])).1,
    (AdvanceTime_not_positive exampleContract 1 (Double.finite (-3)) captureArena
      (by simp [Double.gtZero])).1⟩

theorem Arena.eq_of_fields (a b : Arena σ) (h1 : a.x_dim = b.x_dim) (h2 : a.y_dim = b.y_dim)
    (h3 : a.entities = b.entities) (h4 : a.mobile_entities = b.mobile_entities)
    (h5 : a.robot = b.robot) (h6 : a.game_status = b.game_status) (h7 : a.calls = b.calls) :
    a = b := by
  cases a
  cases b
  simp_all

/-- The update loop, field by field: every entity is replaced by its state after
`TimestepUpdate(1)`, one `TimestepUpdate(1)` call per entity is recorded in creation order,
and the rest is kept. -/
theorem updateEntities_eq (c : EntityContract σ) (a : Arena σ) :
    updateEntities c a =
      { a with
        entities := a.entities.map (fun e => c.TimestepUpdate e 1)
        calls := a.calls
          ++ (List.range a.entities.length).map (fun i => HookCall.TimestepUpdate i 1) } := by
  obtain ⟨x1, y1, m1, r1, g1, _, c1⟩ := updateEntities_spec c a
  exact Arena.eq_of_fields _ _ x1 y1 (updateEntities_entities c a) m1 r1 g1 c1

/-- C7: for any two strictly positive `dt1` and `dt2`, `AdvanceTime` gives the same arena,
the one a single `UpdateEntitiesTimestep` gives.  That arena is the result of the win/loss
check and the collision loop run on the arena in which every entity has been replaced by its
state after `TimestepUpdate(1)`, whatever `dt` is; so with no mobile entity to collide, the
entities after the call are exactly the updated ones.  The calls recorded are one
`TimestepUpdate(1)` per entity in creation order followed by collision-hook calls only. -/
theorem AdvanceTime_single_pass (c : EntityContract σ) (N_BASES : Int) (dt1 dt2 : Double)
    (a : Arena σ) (h1 : dt1.gtZero = true) (h2 : dt2.gtZero = true) :
    AdvanceTime c N_BASES dt1 a = AdvanceTime c N_BASES dt2 a ∧
    AdvanceTime c N_BASES dt1 a = UpdateEntitiesTimestep c N_BASES a ∧
    (updateEntities c a).entities = a.entities.map (fun e => c.TimestepUpdate e 1) ∧
    AdvanceTime c N_BASES dt1 a
      = a.mobile_entities.foldl (collideMobile c)
          (checkWinLoss N_BASES
            { a with
              entities := a.entities.map (fun e => c.TimestepUpdate e 1)
              calls := a.calls
                ++ (List.range a.entities.length).map
                  (fun i => HookCall.TimestepUpdate i 1) }) ∧
    (a.mobile_entities = [] →
      (AdvanceTime c N_BASES dt1 a).entities
        = a.entities.map (fun e => c.TimestepUpdate e 1)) ∧
    ∃ rest : List HookCall,
      (AdvanceTime c N_BASES dt1 a).calls
        = a.calls ++ (List.range a.entities.length).map (fun i => HookCall.TimestepUpdate i 1)
          ++ rest ∧
      ∀ e ∈ rest, e.isHandleCollision = true := by
  have hpass : AdvanceTime c N_BASES dt1 a
      = a.mobile_entities.foldl (collideMobile c)
          (checkWinLoss N_BASES
            { a with
              entities := a.entities.map (fun e => c.TimestepUpdate e 1)
              calls := a.calls
                ++ (List.range a.entities.length).map
                  (fun i => HookCall.TimestepUpdate i 1) }) := by
    rw [AdvanceTime_pos c N_BASES dt1 a h1]
    unfold UpdateEntitiesTimestep
    simp only
    rw [(checkWinLoss_spec N_BASES (updateEntities c a)).2.2.1,
      (updateEntities_spec c a).2.2.1, updateEntities_eq]
  refine ⟨?_, AdvanceTime_pos c N_BASES dt1 a h1, updateEntities_entities c a, hpass, ?_, ?_⟩
  · rw [AdvanceTime_pos c N_BASES dt1 a h1, AdvanceTime_pos c N_BASES dt2 a h2]
  · intro hm
    rw [hpass, hm, List.foldl_nil, (checkWinLoss_spec N_BASES _).2.2.2.2.1]
  · rw [AdvanceTime_pos c N_BASES dt1 a h1]
    obtain ⟨rest, hc, hp⟩ := UpdateEntitiesTimestep_calls c N_BASES a
    refine ⟨rest, hc, ?_⟩
    intro e he
    obtain ⟨i, t, o, rfl, _⟩ := hp e he
    rfl

theorem collideWall_of_no_wall (c : EntityContract σ) (a : Arena σ) (i : Nat)
    (ent1 : ArenaEntity ℝ σ) (h1 : a.entities[i]? = some ent1)
    (hw : GetCollisionWall a.x_dim a.y_dim ent1 = EntityType.kUndefined) :
    collideWall c a i = a := by
  unfold collideWall
  rw [h1]
  simp [hw]

theorem collideEntity_self (c : EntityContract σ) (a : Arena σ) (i : Nat) :
    collideEntity c i a i = a := by
  simp [collideEntity]

theorem collideEntity_of_colliding (c : EntityContract σ) (a : Arena σ) (i j : Nat)
    (ent1 ent2 : ArenaEntity ℝ σ) (hji : j ≠ i) (h1 : a.entities[i]? = some ent1)
    (h2 : a.entities[j]? = some ent2) (hc : IsColliding ent1 ent2 = true) :
    collideEntity c i a j =
      { a with
        entities :=
          (a.entities.set i
            (c.HandleCollision (AdjustEntityOverlap ent1 ent2) ent2.type (some ent2)).1).set j
            ((c.HandleCollision (AdjustEntityOverlap ent1 ent2) ent2.type (some ent2)).2.getD
              ent2)
        calls := a.calls ++ [HookCall.HandleCollision i ent2.type (some j)] } := by
  unfold collideEntity
  rw [if_neg hji, h1, h2]
  simp [hc]

theorem collideEntity_of_not_colliding (c : EntityContract σ) (a : Arena σ) (i j : Nat)
    (ent1 ent2 : ArenaEntity ℝ σ) (h1 : a.entities[i]? = some ent1)
    (h2 : a.entities[j]? = some ent2) (hc : IsColliding ent1 ent2 = false) :
    collideEntity c i a j = a := by
  unfold collideEntity
  split_ifs
  · rfl
  · rw [h1, h2]
    simp [hc]

theorem exampleEntity_no_wall (t : EntityType) (l n : Int) :
    GetCollisionWall (100 : ℝ) 100 (exampleEntity t 50 50 5 l n) = EntityType.kUndefined := by
  apply GetCollisionWall_none <;> norm_num [exampleEntity]

/-- The collision loop body on an arena whose only entity is clear of the walls changes
nothing. -/
theorem collideMobile_lone (c : EntityContract σ) (s : Arena σ) (ent : ArenaEntity ℝ σ)
    (h : s.entities = [ent])
    (hw : GetCollisionWall s.x_dim s.y_dim ent = EntityType.kUndefined) :
    collideMobile c s 0 = s := by
  unfold collideMobile
  simp only
  rw [collideWall_of_no_wall c s 0 ent (by rw [h]; rfl) hw, h]
  rw [show List.range [ent].length = [0] from rfl, List.foldl_cons, List.foldl_nil,
    collideEntity_self]

/-- C7 at an instance: with a contract under which a tick of size `dt` moves an entity `dt`
units along x, steps of 1 and of 1/60 on a lone robot at (50, 50) give the same arena, and in
it the robot is at (51, 50). -/
theorem AdvanceTime_single_pass_witness :
    (Double.finite 1).gtZero = true ∧ (Double.finite (1 / 60)).gtZero = true ∧
    AdvanceTime movingContract 1 (Double.finite 1) loneRobotArena
      = AdvanceTime movingContract 1 (Double.finite (1 / 60)) loneRobotArena ∧
    (AdvanceTime movingContract 1 (Double.finite (1 / 60)) loneRobotArena).entities
      = [exampleEntity EntityType.kRobot 51 50 5 3 0] := by
  have hp1 : (Double.finite 1).gtZero = true := by simp [Double.gtZero]
  have hp2 : (Double.finite (1 / 60)).gtZero = true := by simp [Double.gtZero]
  obtain ⟨_, _, _, hpass, _, _⟩ :=
    AdvanceTime_single_pass movingContract 1 (Double.finite (1 / 60)) (Double.finite 1)
      loneRobotArena hp2 hp1
  have hmap : loneRobotArena.entities.map (fun e => movingContract.TimestepUpdate e 1)
      = [exampleEntity EntityType.kRobot 51 50 5 3 0] := by
    simp only [loneRobotArena, exampleArena, movingContract, exampleEntity, List.map_cons,
      List.map_nil, Nat.cast_one]
    norm_num
  refine ⟨hp1, hp2,
    (AdvanceTime_single_pass movingContract 1 (Double.finite 1) (Double.finite (1 / 60))
      loneRobotArena hp1 hp2).1, ?_⟩
  have hwall : GetCollisionWall (100 : ℝ) 100 (exampleEntity EntityType.kRobot 51 50 5 3 0)
      = EntityType.kUndefined := by
    apply GetCollisionWall_none <;> norm_num [exampleEntity]
  have key : ∀ s : Arena Unit, s.entities = [exampleEntity EntityType.kRobot 51 50 5 3 0] →
      s.x_dim = 100 → s.y_dim = 100 → s.mobile_entities = [0] →
      (s.mobile_entities.foldl (collideMobile movingContract) (checkWinLoss 1 s)).entities
        = [exampleEntity EntityType.kRobot 51 50 5 3 0] := by
    intro s he hx hy hm
    have hents : (checkWinLoss 1 s).entities = [exampleEntity EntityType.kRobot 51 50 5 3 0] := by
      rw [(checkWinLoss_spec 1 s).2.2.2.2.1, he]
    rw [hm, List.foldl_cons, List.foldl_nil,
      collideMobile_lone movingContract (checkWinLoss 1 s)
        (exampleEntity EntityType.kRobot 51 50 5 3 0) hents
        (by rw [(checkWinLoss_spec 1 s).1, (checkWinLoss_spec 1 s).2.1, hx, hy]; exact hwall)]
    exact hents
  rw [hpass]
  exact key _ hmap rfl rfl rfl

/-- C8 (as stated, refuted): with `N_BASES = 1`, a robot that has captured no base and
overlaps a base captures it in the collision hook of the tick, after the win check has run:
at the end of the tick its count is 1, the total, and the status is still Playing. -/
theorem AdvanceTime_capture_not_won :
    (Double.finite 1).gtZero = true ∧
    captureArena.robot = 0 ∧
    ((AdvanceTime exampleContract 1 (Double.finite 1) captureArena).entities[0]?).map
      (fun e => e.num_bases_captured) = some 1 ∧
    (AdvanceTime exampleContract 1 (Double.finite 1) captureArena).game_status
      = GameStatus.PLAYING := by
  have hpos : (Double.finite 1).gtZero = true := by simp [Double.gtZero]
  have hcol : IsColliding (exampleEntity EntityType.kRobot 50 50 5 3 0)
      (exampleEntity EntityType.kBase 53 50 5 0 0) = true := by
    refine (IsColliding_iff_sq_le _ _ ?_ ?_).mpr ?_ <;> norm_num [exampleEntity]
  have hstep : UpdateEntitiesTimestep exampleContract 1 captureArena
      = collideEntity exampleContract 0
          (checkWinLoss 1 (updateEntities exampleContract captureArena)) 1 := by
    unfold UpdateEntitiesTimestep
    simp only
    rw [show (checkWinLoss 1 (updateEntities exampleContract captureArena)).mobile_entities
      = [0] from rfl, List.foldl_cons, List.foldl_nil]
    unfold collideMobile
    simp only
    rw [collideWall_of_no_wall exampleContract
      (checkWinLoss 1 (updateEntities exampleContract captureArena)) 0
      (exampleEntity EntityType.kRobot 50 50 5 3 0) rfl (exampleEntity_no_wall _ _ _)]
    rw [show List.range
      (checkWinLoss 1 (updateEntities exampleContract captureArena)).entities.length
        = [0, 1] from rfl]
    simp only [List.foldl_cons, List.foldl_nil, collideEntity_self]
  refine ⟨hpos, rfl, ?_, ?_⟩
  · rw [AdvanceTime_pos _ _ _ _ hpos, hstep]
    rw [collideEntity_of_colliding exampleContract
      (checkWinLoss 1 (updateEntities exampleContract captureArena)) 0 1
      (exampleEntity EntityType.kRobot 50 50 5 3 0)
      (exampleEntity EntityType.kBase 53 50 5 0 0) (by decide) rfl rfl hcol]
    simp only [show (checkWinLoss 1 (updateEntities exampleContract captureArena)).entities
      = [exampleEntity EntityType.kRobot 50 50 5 3 0, exampleEntity EntityType.kBase 53 50 5 0 0]
      from rfl]
    simp [exampleContract, exampleEntity, AdjustEntityOverlap, ArenaEntity.set_position]
  · rw [AdvanceTime_pos _ _ _ _ hpos, UpdateEntitiesTimestep_game_status]
    rfl

/-- C8 (amended): for `dt > 0`, if the robot's captured-base count equals `N_BASES` right
after the entity updates of the tick, when the win check runs, then after `AdvanceTime(dt)`
the status is Won. -/
theorem AdvanceTime_won_at_check (c : EntityContract σ) (N_BASES : Int) (dt : Double)
    (a : Arena σ) (robot : ArenaEntity ℝ σ) (h : dt.gtZero = true)
    (hr : (updateEntities c a).entities[a.robot]? = some robot)
    (hn : robot.num_bases_captured = N_BASES) :
    (AdvanceTime c N_BASES dt a).game_status = GameStatus.WON := by
  rw [AdvanceTime_pos c N_BASES dt a h, UpdateEntitiesTimestep_game_status,
    checkWinLoss_game_status N_BASES _ robot
      (by rw [(updateEntities_spec c a).2.2.2.1]; exact hr),
    if_pos hn]

/-- C8 (amended), at an instance: with `N_BASES = 1`, a robot that already holds the one
base there is. -/
theorem AdvanceTime_won_at_check_witness :
    (Double.finite 1).gtZero = true ∧
    (updateEntities exampleContract wonAndLostArena).entities[wonAndLostArena.robot]?
      = some (exampleEntity EntityType.kRobot 50 50 5 0 1) ∧
    (exampleEntity EntityType.kRobot 50 50 5 0 1).num_bases_captured = 1 ∧
    (AdvanceTime exampleContract 1 (Double.finite 1) wonAndLostArena).game_status
      = GameStatus.WON :=
  ⟨by simp [Double.gtZero], rfl, rfl,
    AdvanceTime_won_at_check exampleContract 1 (Double.finite 1) wonAndLostArena
      (exampleEntity EntityType.kRobot 50 50 5 0 1) (by simp [Double.gtZero]) rfl rfl⟩

/-- C9 (as stated, refuted): with `N_BASES = 1`, a robot with no life left that holds one
captured base has 0 lives when the check runs, and the status after the tick is Won, not
Lost. -/
theorem AdvanceTime_no_lives_not_lost :
    (Double.finite 1).gtZero = true ∧
    ((updateEntities exampleContract wonAndLostArena).entities[wonAndLostArena.robot]?).map
      (fun e => e.lives) = some 0 ∧
    (AdvanceTime exampleContract 1 (Double.finite 1) wonAndLostArena).game_status
      = GameStatus.WON ∧
    GameStatus.WON ≠ GameStatus.LOST := by
  have hpos : (Double.finite 1).gtZero = true := by simp [Double.gtZero]
  refine ⟨hpos, rfl, ?_, by decide⟩
  rw [AdvanceTime_pos _ _ _ _ hpos, UpdateEntitiesTimestep_game_status]
  rfl

/-- C9 (amended): for `dt > 0`, if the robot has 0 lives when the tick's termination check
runs and its captured-base count then differs from `N_BASES`, the status after
`AdvanceTime(dt)` is Lost. -/
theorem AdvanceTime_lost_at_check (c : EntityContract σ) (N_BASES : Int) (dt : Double)
    (a : Arena σ) (robot : ArenaEntity ℝ σ) (h : dt.gtZero = true)
    (hr : (updateEntities c a).entities[a.robot]? = some robot)
    (hl : robot.lives = 0) (hn : robot.num_bases_captured ≠ N_BASES) :
    (AdvanceTime c N_BASES dt a).game_status = GameStatus.LOST := by
  rw [AdvanceTime_pos c N_BASES dt a h, UpdateEntitiesTimestep_game_status,
    checkWinLoss_game_status N_BASES _ robot
      (by rw [(updateEntities_spec c a).2.2.2.1]; exact hr),
    if_neg hn, if_pos hl]

/-- C9 (amended), at an instance: with `N_BASES = 1`, a robot with no life left and no
captured base. -/
theorem AdvanceTime_lost_at_check_witness :
    (Double.finite 1).gtZero = true ∧
    (updateEntities exampleContract lostArena).entities[lostArena.robot]?
      = some (exampleEntity EntityType.kRobot 50 50 5 0 0) ∧
    (exampleEntity EntityType.kRobot 50 50 5 0 0).lives = 0 ∧
    (exampleEntity EntityType.kRobot 50 50 5 0 0).num_bases_captured ≠ 1 ∧
    (AdvanceTime exampleContract 1 (Double.finite 1) lostArena).game_status
      = GameStatus.LOST :=
  ⟨by simp [Double.gtZero], rfl, rfl, by decide,
    AdvanceTime_lost_at_check exampleContract 1 (Double.finite 1) lostArena
      (exampleEntity EntityType.kRobot 50 50 5 0 0) (by simp [Double.gtZero]) rfl rfl
      (by decide)⟩

theorem range_split (n j : Nat) (h : j < n) :
    List.range n = List.range j ++ j :: List.range' (j + 1) (n - j - 1) := by
  obtain ⟨k, rfl⟩ : ∃ k, n = k + 1 + j := ⟨n - j - 1, by omega⟩
  rw [List.range_eq_range', List.range_eq_range', ← List.range'_append_1 0 j (k + 1),
    Nat.zero_add, List.range'_succ, show k + 1 + j - j - 1 = k by omega]

/-- A tick, cut at the moment it tests the mobile entity `i` against the entity at index
`j`: it goes on from the result of that test with the later entities and then the later
mobile entities. -/
theorem UpdateEntitiesTimestep_split (c : EntityContract σ) (N_BASES : Int) (a : Arena σ)
    (pre post : List Nat) (i j : Nat) (hm : a.mobile_entities = pre ++ i :: post)
    (hj : j < (atPairTest c N_BASES a pre i j).entities.length) :
    UpdateEntitiesTimestep c N_BASES a
      = post.foldl (collideMobile c)
          ((List.range' (j + 1) ((atPairTest c N_BASES a pre i j).entities.length - j - 1)).foldl
            (collideEntity c i) (collideEntity c i (atPairTest c N_BASES a pre i j) j)) := by
  have hlen : (atPairTest c N_BASES a pre i j).entities.length
      = (collideWall c (pre.foldl (collideMobile c)
          (checkWinLoss N_BASES (updateEntities c a))) i).entities.length :=
    (CollisionFrame.foldl [i] _ _
      (fun b k _ => collideEntity_frame c [i] b i k (List.mem_singleton_self i)) _).2.2.2.2.2.1
  have hm2 : (checkWinLoss N_BASES (updateEntities c a)).mobile_entities = pre ++ i :: post := by
    rw [(checkWinLoss_spec N_BASES _).2.2.1, (updateEntities_spec c a).2.2.1, hm]
  unfold UpdateEntitiesTimestep
  simp only
  rw [hm2, List.foldl_append, List.foldl_cons]
  congr 1
  have hcm : ∀ (s : Arena σ) (k : Nat), collideMobile c s k
      = (List.range (collideWall c s k).entities.length).foldl (collideEntity c k)
          (collideWall c s k) := fun _ _ => rfl
  rw [hcm, range_split _ j (by rw [← hlen]; exact hj), List.foldl_append, List.foldl_cons, ← hlen]
  rfl

/-- C10: at the moment a tick tests the mobile entity at index `i` against a distinct entity
at index `j`, if `IsColliding` holds for them, the test replaces the mobile entity by the
result of its collision hook called on its state as repositioned by `AdjustEntityOverlap`,
with the other entity's type tag and the other entity, and records exactly that one call, of
which the mobile entity is the receiver; the call is part of the calls of the tick; and every
collision-hook call of a tick is received by a mobile entity. -/
theorem UpdateEntitiesTimestep_invokes_hook (c : EntityContract σ) (N_BASES : Int)
    (a : Arena σ) (pre post : List Nat) (i j : Nat) (ent1 ent2 : ArenaEntity ℝ σ)
    (hm : a.mobile_entities = pre ++ i :: post) (hji : j ≠ i)
    (h1 : (atPairTest c N_BASES a pre i j).entities[i]? = some ent1)
    (h2 : (atPairTest c N_BASES a pre i j).entities[j]? = some ent2)
    (hc : IsColliding ent1 ent2 = true) :
    collideEntity c i (atPairTest c N_BASES a pre i j) j =
      { atPairTest c N_BASES a pre i j with
        entities :=
          ((atPairTest c N_BASES a pre i j).entities.set i
            (c.HandleCollision (AdjustEntityOverlap ent1 ent2) ent2.type (some ent2)).1).set j
            ((c.HandleCollision (AdjustEntityOverlap ent1 ent2) ent2.type (some ent2)).2.getD
              ent2)
        calls := (atPairTest c N_BASES a pre i j).calls
          ++ [HookCall.HandleCollision i ent2.type (some j)] } ∧
    (∃ rest : List HookCall,
      (UpdateEntitiesTimestep c N_BASES a).calls
        = (atPairTest c N_BASES a pre i j).calls
          ++ [HookCall.HandleCollision i ent2.type (some j)] ++ rest) ∧
    (∃ rest : List HookCall,
      (UpdateEntitiesTimestep c N_BASES a).calls
        = a.calls ++ (List.range a.entities.length).map (fun k => HookCall.TimestepUpdate k 1)
          ++ rest ∧
      ∀ e ∈ rest, ∃ k t o, e = HookCall.HandleCollision k t o ∧ k ∈ a.mobile_entities) := by
  have hstep := collideEntity_of_colliding c (atPairTest c N_BASES a pre i j) i j ent1 ent2
    hji h1 h2 hc
  refine ⟨hstep, ?_, UpdateEntitiesTimestep_calls c N_BASES a⟩
  have hj : j < (atPairTest c N_BASES a pre i j).entities.length := by
    by_contra hlt
    rw [List.getElem?_eq_none (by omega)] at h2
    cases h2
  rw [UpdateEntitiesTimestep_split c N_BASES a pre post i j hm hj]
  have f1 := CollisionFrame.foldl (pre ++ i :: post) (collideEntity c i)
    (List.range' (j + 1) ((atPairTest c N_BASES a pre i j).entities.length - j - 1))
    (fun b k _ => collideEntity_frame c (pre ++ i :: post) b i k (by simp))
    (collideEntity c i (atPairTest c N_BASES a pre i j) j)
  have f2 := CollisionFrame.foldl (pre ++ i :: post) (collideMobile c) post
    (fun b k hk => collideMobile_frame c (pre ++ i :: post) b k (by simp [hk]))
    ((List.range' (j + 1) ((atPairTest c N_BASES a pre i j).entities.length - j - 1)).foldl
      (collideEntity c i) (collideEntity c i (atPairTest c N_BASES a pre i j) j))
  obtain ⟨_, _, _, _, _, _, rest, hrest, _⟩ := CollisionFrame.trans f1 f2
  refine ⟨rest, ?_⟩
  rw [hrest, hstep]

/-- C10 at the scenario of the spec: in an arena 100 by 100 with a robot and an obstacle both
at (50, 50) with radius 5, the tick tests the robot against the obstacle, they collide, and
the calls of `AdvanceTime` include the robot's collision hook with the obstacle's type and
the obstacle. -/
theorem UpdateEntitiesTimestep_invokes_hook_witness :
    overlapArena.mobile_entities = [] ++ 0 :: [1] ∧ (1 : Nat) ≠ 0 ∧
    (atPairTest exampleContract 1 overlapArena [] 0 1).entities[0]?
      = some (exampleEntity EntityType.kRobot 50 50 5 9 0) ∧
    (atPairTest exampleContract 1 overlapArena [] 0 1).entities[1]?
      = some (exampleEntity EntityType.kObstacle 50 50 5 0 0) ∧
    IsColliding (exampleEntity EntityType.kRobot 50 50 5 9 0)
      (exampleEntity EntityType.kObstacle 50 50 5 0 0) = true ∧
    HookCall.HandleCollision 0 EntityType.kObstacle (some 1)
      ∈ (AdvanceTime exampleContract 1 (Double.finite 1) overlapArena).calls := by
  have hat : atPairTest exampleContract 1 overlapArena [] 0 1
      = checkWinLoss 1 (updateEntities exampleContract overlapArena) := by
    unfold atPairTest
    simp only [List.foldl_nil]
    rw [collideWall_of_no_wall exampleContract
      (checkWinLoss 1 (updateEntities exampleContract overlapArena)) 0
      (exampleEntity EntityType.kRobot 50 50 5 9 0) rfl (exampleEntity_no_wall _ _ _)]
    rw [show List.range 1 = [0] from rfl, List.foldl_cons, List.foldl_nil, collideEntity_self]
  have h1 : (atPairTest exampleContract 1 overlapArena [] 0 1).entities[0]?
      = some (exampleEntity EntityType.kRobot 50 50 5 9 0) := by
    rw [hat]; rfl
  have h2 : (atPairTest exampleContract 1 overlapArena [] 0 1).entities[1]?
      = some (exampleEntity EntityType.kObstacle 50 50 5 0 0) := by
    rw [hat]; rfl
  have hc : IsColliding (exampleEntity EntityType.kRobot 50 50 5 9 0)
      (exampleEntity EntityType.kObstacle 50 50 5 0 0) = true := by
    refine (IsColliding_iff_sq_le _ _ ?_ ?_).mpr ?_ <;> norm_num [exampleEntity]
  refine ⟨rfl, by decide, h1, h2, hc, ?_⟩
  obtain ⟨rest, hrest⟩ :=
    (UpdateEntitiesTimestep_invokes_hook exampleContract 1 overlapArena [] [1] 0 1
      (exampleEntity EntityType.kRobot 50 50 5 9 0)
      (exampleEntity EntityType.kObstacle 50 50 5 0 0) rfl (by decide) h1 h2 hc).2.1
  rw [AdvanceTime_pos _ _ _ _ (by simp [Double.gtZero]), hrest]
  simp [exampleEntity]

end PipelineTheorems

/-! ## Command dispatch and reset -/

section CommandTheorems

variable {σ : Type}

theorem callReset_spec (c : EntityContract σ) (a : Arena σ) (i : Nat)
    (hi : i < a.entities.length) :
    (callReset c a i).x_dim = a.x_dim ∧
    (callReset c a i).y_dim = a.y_dim ∧
    (callReset c a i).mobile_entities = a.mobile_entities ∧
    (callReset c a i).robot = a.robot ∧
    (callReset c a i).game_status = a.game_status ∧
    (callReset c a i).entities.length = a.entities.length ∧
    (callReset c a i).calls = a.calls ++ [HookCall.Reset i] := by
  unfold callReset
  rw [List.getElem?_eq_getElem hi]
  simp

theorem foldl_callReset_spec (c : EntityContract σ) (l : List Nat) (a : Arena σ)
    (hl : ∀ i ∈ l, i < a.entities.length) :
    (l.foldl (callReset c) a).x_dim = a.x_dim ∧
    (l.foldl (callReset c) a).y_dim = a.y_dim ∧
    (l.foldl (callReset c) a).mobile_entities = a.mobile_entities ∧
    (l.foldl (callReset c) a).robot = a.robot ∧
    (l.foldl (callReset c) a).game_status = a.game_status ∧
    (l.foldl (callReset c) a).entities.length = a.entities.length ∧
    (l.foldl (callReset c) a).calls = a.calls ++ l.map HookCall.Reset := by
  induction l generalizing a with
  | nil => simp
  | cons i is ih =>
    obtain ⟨x1, y1, m1, r1, g1, l1, c1⟩ :=
      callReset_spec c a i (hl i (List.mem_cons_self i is))
    have hl2 : ∀ k ∈ is, k < (callReset c a i).entities.length := by
      intro k hk
      rw [l1]
      exact hl k (List.mem_cons_of_mem i hk)
    obtain ⟨x2, y2, m2, r2, g2, l2, c2⟩ := ih (callReset c a i) hl2
    rw [List.foldl_cons]
    refine ⟨x2.trans x1, y2.trans y1, m2.trans m1, r2.trans r1, g2.trans g1, l2.trans l1, ?_⟩
    rw [c2, c1, List.map_cons, List.append_assoc, List.singleton_append]

theorem callReset_getElem? (c : EntityContract σ) (a : Arena σ) (i j : Nat) :
    (callReset c a i).entities[j]?
      = if i = j then (a.entities[j]?).map c.Reset else a.entities[j]? := by
  unfold callReset
  cases h : a.entities[i]? with
  | none =>
    simp only
    split_ifs with hij
    · subst hij
      simp [h]
    · rfl
  | some ent =>
    simp only [List.getElem?_set]
    split_ifs with hij hlt
    · subst hij
      simp [h]
    · subst hij
      rw [List.getElem?_eq_none (by omega)] at h
      cases h
    · rfl

theorem foldl_callReset_getElem? (c : EntityContract σ) (k : Nat) (a : Arena σ) (j : Nat) :
    ((List.range k).foldl (callReset c) a).entities[j]?
      = if j < k then (a.entities[j]?).map c.Reset else a.entities[j]? := by
  induction k with
  | zero => simp
  | succ k ih =>
    rw [List.range_succ, List.foldl_append, List.foldl_cons, List.foldl_nil,
      callReset_getElem?, ih]
    by_cases hkj : k = j
    · subst hkj
      simp
    · by_cases hlt : j < k
      · simp [hkj, hlt, Nat.lt_succ_of_lt hlt]
      · have : ¬ j < k + 1 := by omega
        simp [hkj, hlt, this]

theorem Reset_unfold (c : EntityContract σ) (a : Arena σ) :
    Reset c a = (List.range a.entities.length).foldl (callReset c)
      { a with game_status := GameStatus.PLAYING } := rfl

/-- What `Reset` does, field by field: the status becomes Playing, every entity is replaced
by its state after `Reset()`, one `Reset()` call per entity is recorded in creation order,
and the rest is kept. -/
theorem Reset_eq (c : EntityContract σ) (a : Arena σ) :
    Reset c a =
      { a with
        game_status := GameStatus.PLAYING
        entities := a.entities.map c.Reset
        calls := a.calls ++ (List.range a.entities.length).map HookCall.Reset } := by
  obtain ⟨x1, y1, m1, r1, g1, _, c1⟩ :=
    foldl_callReset_spec c (List.range a.entities.length)
      { a with game_status := GameStatus.PLAYING } (fun _ hi => List.mem_range.mp hi)
  rw [← Reset_unfold] at x1 y1 m1 r1 g1 c1
  have e1 : (Reset c a).entities = a.entities.map c.Reset := by
    apply List.ext_getElem?
    intro j
    rw [Reset_unfold, foldl_callReset_getElem?, List.getElem?_map]
    split_ifs with h
    · rfl
    · have h2 : a.entities.length ≤ j := by omega
      rw [show ({ a with game_status := GameStatus.PLAYING } : Arena σ).entities = a.entities
        from rfl, List.getElem?_eq_none h2]
      rfl
  exact Arena.eq_of_fields _ _ x1 y1 e1 m1 r1 g1 c1

/-- C11: `AcceptCommand(kPlay)` changes nothing but the status, which becomes Playing, and
`AcceptCommand(kPause)` nothing but the status, which becomes Paused; so Pause followed by
Play gives the arena it started from with status Playing. -/
theorem AcceptCommand_play_pause (c : EntityContract σ) (a : Arena σ) :
    AcceptCommand c Communication.kPlay a = { a with game_status := GameStatus.PLAYING } ∧
    AcceptCommand c Communication.kPause a = { a with game_status := GameStatus.PAUSED } ∧
    AcceptCommand c Communication.kPlay (AcceptCommand c Communication.kPause a)
      = { a with game_status := GameStatus.PLAYING } ∧
    (AcceptCommand c Communication.kPlay
      (AcceptCommand c Communication.kPause a)).game_status = GameStatus.PLAYING :=
  ⟨rfl, rfl, rfl, rfl⟩

/-- C12: `Reset()` and `AcceptCommand(kReset)` give the same arena, whatever the status was:
the status is Playing, every entity has been replaced by its state after `Reset()`, and the
calls recorded are one `Reset()` per entity in creation order. -/
theorem Reset_and_AcceptCommand_reset (c : EntityContract σ) (a : Arena σ) :
    AcceptCommand c Communication.kReset a = Reset c a ∧
    (Reset c a).game_status = GameStatus.PLAYING ∧
    (Reset c a).entities = a.entities.map c.Reset ∧
    (Reset c a).calls = a.calls ++ (List.range a.entities.length).map HookCall.Reset ∧
    Reset c a =
      { a with
        game_status := GameStatus.PLAYING
        entities := a.entities.map c.Reset
        calls := a.calls ++ (List.range a.entities.length).map HookCall.Reset } := by
  refine ⟨rfl, ?_, ?_, ?_, Reset_eq c a⟩ <;> rw [Reset_eq]

/-- C13: `AcceptCommand` returns the arena as it was for `kNone` and for every command value
other than the seven the switch acts on; it is a total function of the command. -/
theorem AcceptCommand_unrecognised (c : EntityContract σ) (a : Arena σ) :
    AcceptCommand c Communication.kNone a = a ∧
    (∀ code : Nat, AcceptCommand c (Communication.kOther code) a = a) ∧
    (∀ com : Communication,
      com ∉ [Communication.kIncreaseSpeed, Communication.kDecreaseSpeed,
        Communication.kTurnLeft, Communication.kTurnRight, Communication.kPlay,
        Communication.kPause, Communication.kReset] →
      AcceptCommand c com a = a) ∧
    (∀ com : Communication, ∃ b : Arena σ, AcceptCommand c com a = b) := by
  refine ⟨rfl, fun _ => rfl, ?_, fun com => ⟨_, rfl⟩⟩
  intro com hcom
  cases com <;> first | rfl | (exfalso; simp at hcom)

end CommandTheorems

/-! ## Construction -/

section ConstructionTheorems

variable {σ F : Type}

theorem createAll_append (C : F → EntityType → ArenaEntity ℝ σ × F) (f : F)
    (l1 l2 : List EntityType) :
    createAll C f (l1 ++ l2)
      = ((createAll C f l1).1 ++ (createAll C (createAll C f l1).2 l2).1,
          (createAll C (createAll C f l1).2 l2).2) := by
  induction l1 generalizing f with
  | nil => simp [createAll]
  | cons t ts ih => simp [createAll, ih]

theorem createAll_length (C : F → EntityType → ArenaEntity ℝ σ × F) (f : F)
    (l : List EntityType) : (createAll C f l).1.length = l.length := by
  induction l generalizing f with
  | nil => simp [createAll]
  | cons t ts ih => simp [createAll, ih]

theorem createAll_types (C : F → EntityType → ArenaEntity ℝ σ × F)
    (honest : ∀ f t, (C f t).1.type = t) (f : F) (l : List EntityType) :
    (createAll C f l).1.map (fun e => e.type) = l := by
  induction l generalizing f with
  | nil => simp [createAll]
  | cons t ts ih => simp [createAll, ih, honest]

theorem foldl_range_ignore {β : Type} (g : β → β) (k : Nat) (s : β) :
    (List.range (k + 1)).foldl (fun s _ => g s) s
      = g ((List.range k).foldl (fun s _ => g s) s) := by
  rw [List.range_succ, List.foldl_append, List.foldl_cons, List.foldl_nil]

/-- The loop of `AddEntity` run `k` times: it appends to `entities` the `k` entities the
factory creates, appends their indices to `mobile_entities` when the type is `kObstacle`,
and keeps the rest. -/
theorem AddEntity_loop (C : F → EntityType → ArenaEntity ℝ σ × F) (t : EntityType)
    (k : Nat) (s : Arena σ × F) :
    ((List.range k).foldl (fun s _ => addOneEntity C t s) s).1.entities
      = s.1.entities ++ (createAll C s.2 (List.replicate k t)).1 ∧
    ((List.range k).foldl (fun s _ => addOneEntity C t s) s).2
      = (createAll C s.2 (List.replicate k t)).2 ∧
    ((List.range k).foldl (fun s _ => addOneEntity C t s) s).1.mobile_entities
      = s.1.mobile_entities ++
        (if t = EntityType.kObstacle then
          (List.range k).map (fun n => s.1.entities.length + n) else []) ∧
    ((List.range k).foldl (fun s _ => addOneEntity C t s) s).1.robot = s.1.robot ∧
    ((List.range k).foldl (fun s _ => addOneEntity C t s) s).1.x_dim = s.1.x_dim ∧
    ((List.range k).foldl (fun s _ => addOneEntity C t s) s).1.y_dim = s.1.y_dim ∧
    ((List.range k).foldl (fun s _ => addOneEntity C t s) s).1.game_status = s.1.game_status ∧
    ((List.range k).foldl (fun s _ => addOneEntity C t s) s).1.calls = s.1.calls := by
  induction k with
  | zero => simp [createAll]
  | succ k ih =>
    obtain ⟨h1, h2, h3, h4, h5, h6, h7, h8⟩ := ih
    rw [foldl_range_ignore (addOneEntity C t) k s, List.replicate_succ', createAll_append]
    by_cases ht : t = EntityType.kObstacle
    · simp only [addOneEntity, ht, if_true] at h1 h2 h3 h4 h5 h6 h7 h8 ⊢
      simp only [h1, h2, h3, h4, h5, h6, h7, h8, createAll, List.range_succ, List.map_append,
        List.length_append, createAll_length, List.length_replicate, List.append_assoc,
        List.map_cons, List.map_nil]
      exact ⟨trivial, trivial, trivial, trivial, trivial, trivial, trivial, trivial⟩
    · simp only [addOneEntity, ht, if_false] at h1 h2 h3 h4 h5 h6 h7 h8 ⊢
      simp only [h1, h2, h3, h4, h5, h6, h7, h8, createAll, List.append_assoc, List.append_nil]
      exact ⟨trivial, trivial, trivial, trivial, trivial, trivial, trivial, trivial⟩

/-- The fields of the constructed arena. -/
theorem Construct_fields (C : F → EntityType → ArenaEntity ℝ σ × F) (f : F)
    (params : arena_params) :
    (Arena.Construct C f params : Arena σ).entities
      = (createAll C f (EntityType.kRobot ::
          (List.replicate params.n_bases.toNat EntityType.kBase
            ++ List.replicate params.n_obstacles.toNat EntityType.kObstacle))).1 ∧
    (Arena.Construct C f params : Arena σ).mobile_entities
      = 0 :: (List.range params.n_obstacles.toNat).map
          (fun n => 1 + params.n_bases.toNat + n) ∧
    (Arena.Construct C f params : Arena σ).robot = 0 ∧
    (Arena.Construct C f params : Arena σ).x_dim = params.x_dim ∧
    (Arena.Construct C f params : Arena σ).y_dim = params.y_dim ∧
    (Arena.Construct C f params : Arena σ).game_status = GameStatus.PAUSED ∧
    (Arena.Construct C f params : Arena σ).calls = [] := by
  unfold Arena.Construct AddEntity
  simp only
  obtain ⟨a1, a2, a3, a4, a5, a6, a7, a8⟩ :=
    AddEntity_loop C EntityType.kBase params.n_bases.toNat
      (AddRobot C
        (({ x_dim := params.x_dim, y_dim := params.y_dim, entities := [],
            mobile_entities := [], robot := 0, game_status := GameStatus.PAUSED,
            calls := [] } : Arena σ), f))
  obtain ⟨b1, b2, b3, b4, b5, b6, b7, b8⟩ :=
    AddEntity_loop C EntityType.kObstacle params.n_obstacles.toNat
      ((List.range params.n_bases.toNat).foldl
        (fun s _ => addOneEntity C EntityType.kBase s)
        (AddRobot C
          (({ x_dim := params.x_dim, y_dim := params.y_dim, entities := [],
              mobile_entities := [], robot := 0, game_status := GameStatus.PAUSED,
              calls := [] } : Arena σ), f)))
  rw [b1, b3, b4, b5, b6, b7, b8, a1, a2, a3, a4, a5, a6, a7, a8]
  simp [AddRobot, createAll, createAll_append, createAll_length]
  intro _ _
  omega

theorem mobileIndices_append (ents : List (ArenaEntity ℝ σ)) (e : ArenaEntity ℝ σ) :
    mobileIndices (ents ++ [e])
      = mobileIndices ents ++ (if e.type.isMobile then [ents.length] else []) := by
  unfold mobileIndices
  rw [List.length_append, List.length_singleton, List.range_succ, List.filter_append]
  congr 1
  · apply List.filter_congr
    intro i hi
    rw [List.getElem?_append_left (List.mem_range.mp hi)]
  · simp [List.filter_cons]

/-- When the factory creates entities of the requested type, construction keeps
`mobile_entities` equal to the indices of the mobile entities. -/
theorem Construct_mobileIndices (C : F → EntityType → ArenaEntity ℝ σ × F)
    (honest : ∀ f t, (C f t).1.type = t) (f : F) (params : arena_params) :
    (Arena.Construct C f params : Arena σ).mobile_entities
      = mobileIndices (Arena.Construct C f params : Arena σ).entities := by
  have single : ∀ (t : EntityType) (s : Arena σ × F),
      (t = EntityType.kBase ∨ t = EntityType.kObstacle) →
      s.1.mobile_entities = mobileIndices s.1.entities →
      (addOneEntity C t s).1.mobile_entities = mobileIndices (addOneEntity C t s).1.entities := by
    intro t s ht hs
    rcases ht with ht | ht
    · subst ht
      simp [addOneEntity, mobileIndices_append, honest, EntityType.isMobile, hs]
    · subst ht
      simp [addOneEntity, mobileIndices_append, honest, EntityType.isMobile, hs]
  have step : ∀ (t : EntityType) (k : Nat) (s : Arena σ × F),
      (t = EntityType.kBase ∨ t = EntityType.kObstacle) →
      s.1.mobile_entities = mobileIndices s.1.entities →
      ((List.range k).foldl (fun s _ => addOneEntity C t s) s).1.mobile_entities
        = mobileIndices ((List.range k).foldl (fun s _ => addOneEntity C t s) s).1.entities := by
    intro t k s ht hs
    induction k with
    | zero => simpa using hs
    | succ k ih =>
      rw [foldl_range_ignore (addOneEntity C t) k s]
      exact single t _ ht ih
  unfold Arena.Construct AddEntity
  simp only
  apply step _ _ _ (Or.inr rfl)
  apply step _ _ _ (Or.inl rfl)
  have h0 := mobileIndices_append ([] : List (ArenaEntity ℝ σ)) (C f EntityType.kRobot).1
  rw [honest] at h0
  simp only [AddRobot, List.nil_append, List.length_nil] at h0 ⊢
  rw [h0]
  rfl

/-- C14: the constructed arena holds, in this order, the entity the factory creates for
`kRobot`, those it creates for `n_bases` requests of `kBase` and those for `n_obstacles`
requests of `kObstacle`, `1 + n_bases + n_obstacles` entities in all, with the robot at
index 0; its dimensions are the given ones and its status is Paused; when the factory
creates entities of the requested type, the type tags are one robot, then the bases, then
the obstacles. -/
theorem Construct_entities (C : F → EntityType → ArenaEntity ℝ σ × F) (f : F)
    (params : arena_params) (hb : 0 ≤ params.n_bases) (ho : 0 ≤ params.n_obstacles) :
    (Arena.Construct C f params : Arena σ).entities
      = (createAll C f (EntityType.kRobot ::
          (List.replicate params.n_bases.toNat EntityType.kBase
            ++ List.replicate params.n_obstacles.toNat EntityType.kObstacle))).1 ∧
    ((Arena.Construct C f params : Arena σ).entities.length : Int)
      = 1 + params.n_bases + params.n_obstacles ∧
    (Arena.Construct C f params : Arena σ).robot = 0 ∧
    (Arena.Construct C f params : Arena σ).x_dim = params.x_dim ∧
    (Arena.Construct C f params : Arena σ).y_dim = params.y_dim ∧
    (Arena.Construct C f params : Arena σ).game_status = GameStatus.PAUSED ∧
    ((∀ f t, (C f t).1.type = t) →
      (Arena.Construct C f params : Arena σ).entities.map (fun e => e.type)
        = EntityType.kRobot ::
          (List.replicate params.n_bases.toNat EntityType.kBase
            ++ List.replicate params.n_obstacles.toNat EntityType.kObstacle)) := by
  obtain ⟨h1, _, h3, h4, h5, h6, _⟩ := Construct_fields C f params
  refine ⟨h1, ?_, h3, h4, h5, h6, ?_⟩
  · rw [h1, createAll_length]
    simp only [List.length_cons, List.length_append, List.length_replicate]
    omega
  · intro honest
    rw [h1, createAll_types C honest]

/-- C14 at an instance: the example factory asked for two bases and one obstacle gives a
robot, two bases and an obstacle. -/
theorem Construct_entities_witness :
    (0 : Int) ≤ exampleParams.n_bases ∧ (0 : Int) ≤ exampleParams.n_obstacles ∧
    (Arena.Construct exampleFactory 0 exampleParams).entities.map (fun e => e.type)
      = [EntityType.kRobot, EntityType.kBase, EntityType.kBase, EntityType.kObstacle] := by
  refine ⟨by decide, by decide, ?_⟩
  rw [(Construct_entities exampleFactory 0 exampleParams (by decide) (by decide)).2.2.2.2.2.2
    (fun _ _ => rfl)]
  rfl

/-- C15: when the factory creates entities of the requested type, `mobile_entities` of the
constructed arena lists exactly the indices of the entities of a mobile type (the robot and
the obstacles), in increasing order, that is in their order in `entities`: index 0, the
robot, then the `n_obstacles` indices after the bases. -/
theorem Construct_mobile_entities (C : F → EntityType → ArenaEntity ℝ σ × F) (f : F)
    (params : arena_params) (hb : 0 ≤ params.n_bases) (ho : 0 ≤ params.n_obstacles)
    (honest : ∀ f t, (C f t).1.type = t) :
    (Arena.Construct C f params : Arena σ).mobile_entities
      = mobileIndices (Arena.Construct C f params : Arena σ).entities ∧
    (Arena.Construct C f params : Arena σ).mobile_entities
      = 0 :: (List.range params.n_obstacles.toNat).map
          (fun n => 1 + params.n_bases.toNat + n) ∧
    ((Arena.Construct C f params : Arena σ).mobile_entities.length : Int)
      = 1 + params.n_obstacles ∧
    (Arena.Construct C f params : Arena σ).mobile_entities.head?
      = some (Arena.Construct C f params : Arena σ).robot ∧
    (Arena.Construct C f params : Arena σ).mobile_entities.Pairwise (fun i j => i < j) ∧
    (∀ i ∈ (Arena.Construct C f params : Arena σ).mobile_entities,
      ∃ ent, (Arena.Construct C f params : Arena σ).entities[i]? = some ent ∧
        (ent.type = EntityType.kRobot ∨ ent.type = EntityType.kObstacle)) := by
  have _ := hb
  obtain ⟨_, h2, h3, _⟩ := Construct_fields C f params
  have hmi := Construct_mobileIndices C honest f params
  refine ⟨hmi, h2, ?_, ?_, ?_, ?_⟩
  · rw [h2]
    simp only [List.length_cons, List.length_map, List.length_range]
    omega
  · rw [h2, h3]
    rfl
  · rw [hmi]
    unfold mobileIndices
    exact List.Pairwise.filter _ (List.pairwise_lt_range _)
  · intro i hi
    rw [hmi] at hi
    unfold mobileIndices at hi
    rw [List.mem_filter] at hi
    obtain ⟨_, hi2⟩ := hi
    cases hent : (Arena.Construct C f params : Arena σ).entities[i]? with
    | none => simp [hent] at hi2
    | some ent =>
      refine ⟨ent, rfl, ?_⟩
      simp only [hent] at hi2
      cases ht : ent.type <;> simp [ht, EntityType.isMobile] at hi2 ⊢

/-- C15 at an instance: with two bases and one obstacle the mobile entities are the
entities at indices 0 and 3. -/
theorem Construct_mobile_entities_witness :
    (0 : Int) ≤ exampleParams.n_bases ∧ (0 : Int) ≤ exampleParams.n_obstacles ∧
    (∀ (f : Nat) (t : EntityType), (exampleFactory f t).1.type = t) ∧
    (Arena.Construct exampleFactory 0 exampleParams).mobile_entities = [0, 3] := by
  refine ⟨by decide, by decide, fun _ _ => rfl, ?_⟩
  rw [(Construct_mobile_entities exampleFactory 0 exampleParams (by decide) (by decide)
    (fun _ _ => rfl)).2.1]
  rfl

end ConstructionTheorems

/-! ## The population is fixed -/

section PopulationTheorems

variable {σ : Type}

theorem PopulationKept_refl {c : EntityContract σ}
    {T : ArenaEntity ℝ σ → ArenaEntity ℝ σ → Prop} (hT : Respects c T) (a : Arena σ) :
    PopulationKept T a a :=
  ⟨rfl, rfl, rfl, rfl, List.forall₂_same.mpr (fun e _ => hT.refl e)⟩

theorem forall₂_trans {T : ArenaEntity ℝ σ → ArenaEntity ℝ σ → Prop}
    (htrans : ∀ e1 e2 e3, T e1 e2 → T e2 e3 → T e1 e3)
    {l1 l2 l3 : List (ArenaEntity ℝ σ)} (h1 : List.Forall₂ T l1 l2)
    (h2 : List.Forall₂ T l2 l3) : List.Forall₂ T l1 l3 := by
  induction h1 generalizing l3 with
  | nil => cases h2; exact List.Forall₂.nil
  | cons hab _ ih =>
    cases h2 with
    | cons hbc hrest => exact List.Forall₂.cons (htrans _ _ _ hab hbc) (ih hrest)

theorem PopulationKept_trans {c : EntityContract σ}
    {T : ArenaEntity ℝ σ → ArenaEntity ℝ σ → Prop} (hT : Respects c T) {a b d : Arena σ}
    (h1 : PopulationKept T a b) (h2 : PopulationKept T b d) : PopulationKept T a d := by
  obtain ⟨x1, y1, m1, r1, f1⟩ := h1
  obtain ⟨x2, y2, m2, r2, f2⟩ := h2
  exact ⟨x2.trans x1, y2.trans y1, m2.trans m1, r2.trans r1, forall₂_trans hT.trans f1 f2⟩

theorem PopulationKept_foldl {c : EntityContract σ}
    {T : ArenaEntity ℝ σ → ArenaEntity ℝ σ → Prop} (hT : Respects c T) {β : Type}
    (f : Arena σ → β → Arena σ) (l : List β)
    (hf : ∀ (a : Arena σ) (x : β), PopulationKept T a (f a x)) (a : Arena σ) :
    PopulationKept T a (l.foldl f a) := by
  induction l generalizing a with
  | nil => exact PopulationKept_refl hT a
  | cons x xs ih =>
    rw [List.foldl_cons]
    exact PopulationKept_trans hT (hf a x) (ih (f a x))

theorem forall₂_set {T : ArenaEntity ℝ σ → ArenaEntity ℝ σ → Prop}
    (hrefl : ∀ e, T e e) (l : List (ArenaEntity ℝ σ)) (i : Nat)
    (old new : ArenaEntity ℝ σ) (h : l[i]? = some old) (hT : T old new) :
    List.Forall₂ T l (l.set i new) := by
  induction l generalizing i with
  | nil => simp at h
  | cons e es ih =>
    cases i with
    | zero =>
      simp only [List.getElem?_cons_zero, Option.some.injEq] at h
      subst h
      exact List.Forall₂.cons hT (List.forall₂_same.mpr (fun e _ => hrefl e))
    | succ i =>
      simp only [List.getElem?_cons_succ] at h
      exact List.Forall₂.cons (hrefl e) (ih i h)

/-- Replacing the entity at one index by a related state keeps the population, whatever
happens to the status and the record of calls. -/
theorem PopulationKept_set {c : EntityContract σ}
    {T : ArenaEntity ℝ σ → ArenaEntity ℝ σ → Prop} (hT : Respects c T) (a : Arena σ)
    (i : Nat) (old new : ArenaEntity ℝ σ) (g : GameStatus) (calls : List HookCall)
    (h : a.entities[i]? = some old) (hon : T old new) :
    PopulationKept T a
      { a with entities := a.entities.set i new, game_status := g, calls := calls } :=
  ⟨rfl, rfl, rfl, rfl, forall₂_set hT.refl a.entities i old new h hon⟩

theorem callTimestepUpdate_kept {c : EntityContract σ}
    {T : ArenaEntity ℝ σ → ArenaEntity ℝ σ → Prop} (hT : Respects c T) (a : Arena σ)
    (i : Nat) : PopulationKept T a (callTimestepUpdate c a i) := by
  unfold callTimestepUpdate
  cases h : a.entities[i]? with
  | none => exact PopulationKept_refl hT a
  | some ent => exact PopulationKept_set hT a i ent _ _ _ h (hT.TimestepUpdate ent 1)

theorem callReset_kept {c : EntityContract σ}
    {T : ArenaEntity ℝ σ → ArenaEntity ℝ σ → Prop} (hT : Respects c T) (a : Arena σ)
    (i : Nat) : PopulationKept T a (callReset c a i) := by
  unfold callReset
  cases h : a.entities[i]? with
  | none => exact PopulationKept_refl hT a
  | some ent => exact PopulationKept_set hT a i ent _ _ _ h (hT.Reset ent)

theorem callRobot_kept {c : EntityContract σ}
    {T : ArenaEntity ℝ σ → ArenaEntity ℝ σ → Prop} (hT : Respects c T)
    (method : ArenaEntity ℝ σ → ArenaEntity ℝ σ) (call : Nat → HookCall)
    (hm : ∀ e, T e (method e)) (a : Arena σ) :
    PopulationKept T a (callRobot method call a) := by
  unfold callRobot
  cases h : a.entities[a.robot]? with
  | none => exact PopulationKept_refl hT a
  | some ent => exact PopulationKept_set hT a a.robot ent _ _ _ h (hm ent)

theorem checkWinLoss_kept {c : EntityContract σ}
    {T : ArenaEntity ℝ σ → ArenaEntity ℝ σ → Prop} (hT : Respects c T) (N_BASES : Int)
    (a : Arena σ) : PopulationKept T a (checkWinLoss N_BASES a) := by
  obtain ⟨x, y, m, r, e, _⟩ := checkWinLoss_spec N_BASES a
  refine ⟨x, y, m, r, ?_⟩
  rw [e]
  exact List.forall₂_same.mpr (fun e _ => hT.refl e)

theorem AdjustWallOverlap_respects {c : EntityContract σ}
    {T : ArenaEntity ℝ σ → ArenaEntity ℝ σ → Prop} (hT : Respects c T) (W H : ℝ)
    (ent : ArenaEntity ℝ σ) (w : EntityType) : T ent (AdjustWallOverlap W H ent w) := by
  cases w <;> first | exact hT.refl ent | exact hT.set_position ent _ _

theorem collideWall_kept {c : EntityContract σ}
    {T : ArenaEntity ℝ σ → ArenaEntity ℝ σ → Prop} (hT : Respects c T) (a : Arena σ)
    (i : Nat) : PopulationKept T a (collideWall c a i) := by
  unfold collideWall
  cases h : a.entities[i]? with
  | none => exact PopulationKept_refl hT a
  | some ent1 =>
    simp only
    split_ifs with hw
    · exact PopulationKept_set hT a i ent1 _ _ _ h
        (hT.trans _ _ _ (AdjustWallOverlap_respects hT _ _ ent1 _) (hT.HandleCollision _ _ _))
    · exact PopulationKept_refl hT a

theorem collideEntity_kept {c : EntityContract σ}
    {T : ArenaEntity ℝ σ → ArenaEntity ℝ σ → Prop} (hT : Respects c T) (a : Arena σ)
    (i j : Nat) : PopulationKept T a (collideEntity c i a j) := by
  unfold collideEntity
  split_ifs with hji
  · exact PopulationKept_refl hT a
  · split
    · rename_i ent1 ent2 h1 h2
      split_ifs with hc
      · have s1 : PopulationKept T a
            { a with
              entities := a.entities.set i
                (c.HandleCollision (AdjustEntityOverlap ent1 ent2) ent2.type (some ent2)).1 } :=
          PopulationKept_set hT a i ent1 _ a.game_status a.calls h1
            (hT.trans _ _ _ (hT.set_position ent1 _ _) (hT.HandleCollision _ _ _))
        have hj : (a.entities.set i
            (c.HandleCollision (AdjustEntityOverlap ent1 ent2) ent2.type (some ent2)).1)[j]?
            = some ent2 := by
          rw [List.getElem?_set_ne (fun h => hji h.symm)]
          exact h2
        have hother : T ent2
            ((c.HandleCollision (AdjustEntityOverlap ent1 ent2) ent2.type (some ent2)).2.getD
              ent2) := by
          cases ho : (c.HandleCollision (AdjustEntityOverlap ent1 ent2) ent2.type
            (some ent2)).2 with
          | none => exact hT.refl ent2
          | some o2 => exact hT.HandleCollision_object _ _ _ _ ho
        exact PopulationKept_trans hT s1 (PopulationKept_set hT _ j ent2 _ _ _ hj hother)
      · exact PopulationKept_refl hT a
    · exact PopulationKept_refl hT a

theorem collideMobile_kept {c : EntityContract σ}
    {T : ArenaEntity ℝ σ → ArenaEntity ℝ σ → Prop} (hT : Respects c T) (a : Arena σ)
    (i : Nat) : PopulationKept T a (collideMobile c a i) :=
  PopulationKept_trans hT (collideWall_kept hT a i)
    (PopulationKept_foldl hT (collideEntity c i)
      (List.range (collideWall c a i).entities.length)
      (fun d j => collideEntity_kept hT d i j) (collideWall c a i))

theorem UpdateEntitiesTimestep_kept {c : EntityContract σ}
    {T : ArenaEntity ℝ σ → ArenaEntity ℝ σ → Prop} (hT : Respects c T) (N_BASES : Int)
    (a : Arena σ) : PopulationKept T a (UpdateEntitiesTimestep c N_BASES a) := by
  have h1 : PopulationKept T a (updateEntities c a) :=
    PopulationKept_foldl hT (callTimestepUpdate c) (List.range a.entities.length)
      (fun b i => callTimestepUpdate_kept hT b i) a
  have h2 := checkWinLoss_kept hT N_BASES (updateEntities c a)
  have h3 : PopulationKept T (checkWinLoss N_BASES (updateEntities c a))
      (UpdateEntitiesTimestep c N_BASES a) :=
    PopulationKept_foldl hT (collideMobile c)
      (checkWinLoss N_BASES (updateEntities c a)).mobile_entities
      (fun b i => collideMobile_kept hT b i) (checkWinLoss N_BASES (updateEntities c a))
  exact PopulationKept_trans hT h1 (PopulationKept_trans hT h2 h3)

theorem AdvanceTime_kept {c : EntityContract σ}
    {T : ArenaEntity ℝ σ → ArenaEntity ℝ σ → Prop} (hT : Respects c T) (N_BASES : Int)
    (dt : Double) (a : Arena σ) : PopulationKept T a (AdvanceTime c N_BASES dt a) := by
  unfold AdvanceTime
  split_ifs
  · exact PopulationKept_refl hT a
  · exact PopulationKept_foldl hT _ _ (fun b _ => UpdateEntitiesTimestep_kept hT N_BASES b) a

theorem Reset_kept {c : EntityContract σ}
    {T : ArenaEntity ℝ σ → ArenaEntity ℝ σ → Prop} (hT : Respects c T) (a : Arena σ) :
    PopulationKept T a (Reset c a) := by
  rw [Reset_unfold]
  exact PopulationKept_trans hT
    (⟨rfl, rfl, rfl, rfl, List.forall₂_same.mpr (fun e _ => hT.refl e)⟩ :
      PopulationKept T a { a with game_status := GameStatus.PLAYING })
    (PopulationKept_foldl hT _ _ (fun b i => callReset_kept hT b i) _)

theorem AcceptCommand_kept {c : EntityContract σ}
    {T : ArenaEntity ℝ σ → ArenaEntity ℝ σ → Prop} (hT : Respects c T) (com : Communication)
    (a : Arena σ) : PopulationKept T a (AcceptCommand c com a) := by
  cases com with
  | kIncreaseSpeed => exact callRobot_kept hT _ _ hT.IncreaseSpeed a
  | kDecreaseSpeed => exact callRobot_kept hT _ _ hT.DecreaseSpeed a
  | kTurnLeft => exact callRobot_kept hT _ _ hT.TurnLeft a
  | kTurnRight => exact callRobot_kept hT _ _ hT.TurnRight a
  | kPlay => exact ⟨rfl, rfl, rfl, rfl, List.forall₂_same.mpr (fun e _ => hT.refl e)⟩
  | kPause => exact ⟨rfl, rfl, rfl, rfl, List.forall₂_same.mpr (fun e _ => hT.refl e)⟩
  | kReset => exact Reset_kept hT a
  | kNone => exact PopulationKept_refl hT a
  | kOther code => exact PopulationKept_refl hT a

/-- Every entity contract respects the relation that holds between any two states. -/
theorem respects_true (c : EntityContract σ) : Respects c (fun _ _ => True) := by
  constructor <;> intros <;> trivial

theorem PopulationKept_same {T : ArenaEntity ℝ σ → ArenaEntity ℝ σ → Prop} {a b : Arena σ}
    (h : PopulationKept T a b) : SamePopulation a b :=
  ⟨h.2.2.2.2.length_eq.symm, h.2.2.1, h.2.2.2.1, h.1, h.2.1⟩

theorem PopulationKept_types {a b : Arena σ}
    (h : PopulationKept (fun e e2 : ArenaEntity ℝ σ => e2.type = e.type) a b) :
    b.entities.map (fun e => e.type) = a.entities.map (fun e => e.type) := by
  have h2 := h.2.2.2.2
  generalize a.entities = l1 at h2
  generalize b.entities = l2 at h2
  induction h2 with
  | nil => rfl
  | cons hab _ ih => simp [hab, ih]

end PopulationTheorems

section ReachableTheorems

variable {σ F : Type}

theorem Construct_valid (C : F → EntityType → ArenaEntity ℝ σ × F) (f : F)
    (params : arena_params) :
    (Arena.Construct C f params : Arena σ).entities.length
      = 1 + params.n_bases.toNat + params.n_obstacles.toNat ∧
    (∀ i ∈ (Arena.Construct C f params : Arena σ).mobile_entities,
      i < (Arena.Construct C f params : Arena σ).entities.length) ∧
    (Arena.Construct C f params : Arena σ).robot
      ∈ (Arena.Construct C f params : Arena σ).mobile_entities := by
  obtain ⟨h1, h2, h3, _⟩ := Construct_fields C f params
  have hlen : (Arena.Construct C f params : Arena σ).entities.length
      = 1 + params.n_bases.toNat + params.n_obstacles.toNat := by
    rw [h1, createAll_length]
    simp only [List.length_cons, List.length_append, List.length_replicate]
    omega
  refine ⟨hlen, ?_, ?_⟩
  · intro i hi
    rw [h2] at hi
    rw [hlen]
    rcases List.mem_cons.mp hi with h0 | hmap
    · omega
    · obtain ⟨n, hn, rfl⟩ := List.mem_map.mp hmap
      have := List.mem_range.mp hn
      omega
  · rw [h2, h3]
    exact List.mem_cons_self _ _

/-- C16: `AdvanceTime` for every `dt`, `AcceptCommand` for every command and `Reset` keep the
number of entities, `mobile_entities`, `robot` and the dimensions, and keep every type tag
when the entity contract does; so in every arena reachable from the constructed one the
population is that of the constructed arena, every index in `mobile_entities` and the index
`robot` designate an entity, and, when the factory creates entities of the requested type
and the contract keeps type tags, exactly one entity is a robot and `robot` designates
it. -/
theorem population_preserved (c : EntityContract σ) (N_BASES : Int) :
    (∀ (a : Arena σ) (dt : Double), SamePopulation a (AdvanceTime c N_BASES dt a)) ∧
    (∀ (a : Arena σ) (com : Communication), SamePopulation a (AcceptCommand c com a)) ∧
    (∀ a : Arena σ, SamePopulation a (Reset c a)) ∧
    (TypePreserving c → ∀ a : Arena σ,
      (∀ dt : Double, (AdvanceTime c N_BASES dt a).entities.map (fun e => e.type)
        = a.entities.map (fun e => e.type)) ∧
      (∀ com : Communication, (AcceptCommand c com a).entities.map (fun e => e.type)
        = a.entities.map (fun e => e.type)) ∧
      (Reset c a).entities.map (fun e => e.type) = a.entities.map (fun e => e.type)) ∧
    (∀ (C : F → EntityType → ArenaEntity ℝ σ × F) (f : F) (params : arena_params)
      (s : Arena σ), Reachable C f params c N_BASES s →
      SamePopulation (Arena.Construct C f params) s ∧
      (∀ i ∈ s.mobile_entities, i < s.entities.length) ∧
      s.robot < s.entities.length ∧ s.robot ∈ s.mobile_entities ∧
      ((∀ f t, (C f t).1.type = t) → TypePreserving c →
        (s.entities.map (fun e => e.type)).count EntityType.kRobot = 1 ∧
        (s.entities[s.robot]?).map (fun e => e.type) = some EntityType.kRobot)) := by
  have hT := respects_true c
  have hreach : ∀ (T : ArenaEntity ℝ σ → ArenaEntity ℝ σ → Prop), Respects c T →
      ∀ (C : F → EntityType → ArenaEntity ℝ σ × F) (f : F) (params : arena_params)
        (s : Arena σ), Reachable C f params c N_BASES s →
        PopulationKept T (Arena.Construct C f params) s := by
    intro T hR C f params s hs
    induction hs with
    | construct => exact PopulationKept_refl hR _
    | advance a dt _ ih => exact PopulationKept_trans hR ih (AdvanceTime_kept hR N_BASES dt a)
    | command a com _ ih => exact PopulationKept_trans hR ih (AcceptCommand_kept hR com a)
    | reset a _ ih => exact PopulationKept_trans hR ih (Reset_kept hR a)
  refine ⟨fun a dt => PopulationKept_same (AdvanceTime_kept hT N_BASES dt a),
    fun a com => PopulationKept_same (AcceptCommand_kept hT com a), fun a => PopulationKept_same (Reset_kept hT a),
    fun htp a => ⟨fun dt => PopulationKept_types (AdvanceTime_kept htp N_BASES dt a),
      fun com => PopulationKept_types (AcceptCommand_kept htp com a),
      PopulationKept_types (Reset_kept htp a)⟩, ?_⟩
  intro C f params s hs
  have hsame := PopulationKept_same (hreach _ hT C f params s hs)
  have hl := hsame.1
  have hm := hsame.2.1
  have hr := hsame.2.2.1
  obtain ⟨clen, cvalid, crobot⟩ := Construct_valid C f params
  obtain ⟨_, _, c3, _⟩ := Construct_fields C f params
  refine ⟨hsame, ?_, ?_, ?_, ?_⟩
  · intro i hi
    rw [hl]
    rw [hm] at hi
    exact cvalid i hi
  · rw [hl, hr, c3, clen]
    omega
  · rw [hm, hr]
    exact crobot
  · intro honest htp
    have htypes := PopulationKept_types (hreach _ htp C f params s hs)
    have hc := (Construct_fields C f params).1
    rw [hc, createAll_types C honest] at htypes
    rw [hr, c3]
    constructor
    · rw [htypes]
      simp [List.count_cons, List.count_append, List.count_replicate]
    · have h0 := congrArg (fun l => l[0]?) htypes
      simpa using h0

/-- C16 at an instance: a tick, a command and a reset on the example arena with a robot and
a base keep its population. -/
theorem population_preserved_witness :
    SamePopulation captureArena
      (AdvanceTime exampleContract 1 (Double.finite 1) captureArena) ∧
    SamePopulation captureArena
      (AcceptCommand exampleContract Communication.kTurnLeft captureArena) ∧
    SamePopulation captureArena (Reset exampleContract captureArena) :=
  ⟨(@population_preserved Unit Nat exampleContract 1).1 captureArena (Double.finite 1),
    (@population_preserved Unit Nat exampleContract 1).2.1 captureArena
      Communication.kTurnLeft,
    (@population_preserved Unit Nat exampleContract 1).2.2.1 captureArena⟩

end ReachableTheorems

/-! ## The direction of the entity overlap resolution -/

section DirectionTheorems

variable {σ : Type}

/-- With `delta_x < 0`, `AdjustEntityOverlap` leaves the centres `|r1 + r2|` apart. -/
theorem AdjustEntityOverlap_centreDistance_of_neg (m o : ArenaEntity ℝ σ)
    (hdx : o.pose.x - m.pose.x < 0) :
    centreDistance (AdjustEntityOverlap m o) o = |m.radius + o.radius| := by
  obtain ⟨hcos, hsin⟩ := cos_sin_arctan_div_of_neg (o.pose.x - m.pose.x)
    (o.pose.y - m.pose.y) hdx
  have hd := sqrt_pos_of_ne_zero (o.pose.x - m.pose.x) (o.pose.y - m.pose.y) hdx.ne
  have hd2 : Real.sqrt ((o.pose.x - m.pose.x) * (o.pose.x - m.pose.x)
      + (o.pose.y - m.pose.y) * (o.pose.y - m.pose.y)) ^ 2
      = (o.pose.x - m.pose.x) * (o.pose.x - m.pose.x)
        + (o.pose.y - m.pose.y) * (o.pose.y - m.pose.y) :=
    Real.sq_sqrt (by nlinarith [mul_self_nonneg (o.pose.x - m.pose.x),
      mul_self_nonneg (o.pose.y - m.pose.y)])
  rw [← Real.sqrt_sq_eq_abs]
  unfold centreDistance AdjustEntityOverlap ArenaEntity.set_position
  simp only [hcos, hsin]
  congr 1
  generalize Real.sqrt ((o.pose.x - m.pose.x) * (o.pose.x - m.pose.x)
      + (o.pose.y - m.pose.y) * (o.pose.y - m.pose.y)) = d at hd hd2 ⊢
  have e : (o.pose.x - m.pose.x) ^ 2 + (o.pose.y - m.pose.y) ^ 2 = d ^ 2 := by
    rw [hd2]; ring
  have hx : o.pose.x - (m.pose.x + -(o.pose.x - m.pose.x) / d * (m.radius + o.radius - d))
      = (o.pose.x - m.pose.x) * ((m.radius + o.radius) / d) := by
    field_simp
    ring
  have hy : o.pose.y - (m.pose.y + -(o.pose.y - m.pose.y) / d * (m.radius + o.radius - d))
      = (o.pose.y - m.pose.y) * ((m.radius + o.radius) / d) := by
    field_simp
    ring
  rw [hx, hy, mul_pow, mul_pow, ← add_mul, e]
  field_simp

/-- C20: for an overlapping pair with `delta_x < 0`, after `AdjustEntityOverlap` the centres
are exactly `r1 + r2` apart, so the pair is tangent and `IsColliding` still holds for it. -/
theorem AdjustEntityOverlap_tangent_of_neg (m o : ArenaEntity ℝ σ)
    (hdx : o.pose.x - m.pose.x < 0) (hov : centreDistance m o ≤ m.radius + o.radius) :
    centreDistance (AdjustEntityOverlap m o) o = m.radius + o.radius ∧
    IsColliding (AdjustEntityOverlap m o) o = true := by
  have hd : 0 < centreDistance m o := by
    rw [centreDistance_eq]
    exact sqrt_pos_of_ne_zero _ _ hdx.ne
  have h1 : centreDistance (AdjustEntityOverlap m o) o = m.radius + o.radius := by
    rw [AdjustEntityOverlap_centreDistance_of_neg m o hdx, abs_of_nonneg (by linarith)]
  refine ⟨h1, ?_⟩
  rw [IsColliding_iff_sqrt, ← centreDistance_eq, h1]
  exact le_of_eq rfl

theorem centreDistance_rightMobile_leftOther : centreDistance rightMobile leftOther = 6 := by
  unfold centreDistance rightMobile leftOther exampleEntity
  rw [show ((0 - 6 : ℝ) ^ 2 + (0 - 0) ^ 2) = 6 ^ 2 by norm_num]
  exact Real.sqrt_sq (by norm_num)

/-- C20 at an instance: a mobile entity of radius 5 at (6, 0) against an entity of radius 5
at (0, 0). -/
theorem AdjustEntityOverlap_tangent_of_neg_witness :
    leftOther.pose.x - rightMobile.pose.x < 0 ∧
    centreDistance rightMobile leftOther ≤ rightMobile.radius + leftOther.radius ∧
    centreDistance (AdjustEntityOverlap rightMobile leftOther) leftOther = 5 + 5 ∧
    IsColliding (AdjustEntityOverlap rightMobile leftOther) leftOther = true := by
  have h1 : leftOther.pose.x - rightMobile.pose.x < 0 := by
    norm_num [leftOther, rightMobile, exampleEntity]
  have h2 : centreDistance rightMobile leftOther ≤ rightMobile.radius + leftOther.radius := by
    rw [centreDistance_rightMobile_leftOther]
    norm_num [leftOther, rightMobile, exampleEntity]
  exact ⟨h1, h2, AdjustEntityOverlap_tangent_of_neg rightMobile leftOther h1 h2⟩

/-- C17 (as stated, refuted): a mobile entity of radius 5 at (6, 0) overlaps an entity of
radius 5 at (0, 0) with `d = 6 > 0` and `dx = -6`; `AdjustEntityOverlap` moves it to (10, 0),
a displacement of +4 along x, whereas `(penetration / d) * dx` is -4: the displacement points
away from the other entity. -/
theorem AdjustEntityOverlap_away_of_neg :
    IsColliding rightMobile leftOther = true ∧
    centreDistance rightMobile leftOther = 6 ∧
    leftOther.pose.x - rightMobile.pose.x = -6 ∧
    (AdjustEntityOverlap rightMobile leftOther).pose = ⟨10, 0⟩ ∧
    (AdjustEntityOverlap rightMobile leftOther).pose.x - rightMobile.pose.x = 4 ∧
    (rightMobile.radius + leftOther.radius - centreDistance rightMobile leftOther)
      / centreDistance rightMobile leftOther * (leftOther.pose.x - rightMobile.pose.x) = -4 := by
  have h36 : Real.sqrt ((0 - 6) * (0 - 6) + (0 - 0) * (0 - 0) : ℝ) = 6 := by
    rw [show ((0 - 6) * (0 - 6) + (0 - 0) * (0 - 0) : ℝ) = 6 ^ 2 by norm_num]
    exact Real.sqrt_sq (by norm_num)
  have hpose : (AdjustEntityOverlap rightMobile leftOther).pose = ⟨10, 0⟩ := by
    simp only [AdjustEntityOverlap, ArenaEntity.set_position, rightMobile, leftOther,
      exampleEntity, h36]
    norm_num
  refine ⟨?_, centreDistance_rightMobile_leftOther, ?_, hpose, ?_, ?_⟩
  · rw [IsColliding_iff_sqrt]
    simp only [rightMobile, leftOther, exampleEntity, h36]
    norm_num
  · norm_num [rightMobile, leftOther, exampleEntity]
  · rw [hpose]
    norm_num [rightMobile, exampleEntity]
  · rw [centreDistance_rightMobile_leftOther]
    norm_num [rightMobile, leftOther, exampleEntity]

/-- C17 (amended): for an overlapping pair with `dx != 0` (so `d > 0`), `AdjustEntityOverlap`
displaces the mobile entity by `penetration * (cos(angle), sin(angle))` with
`penetration = r1 + r2 - d` and `angle = atan(dy / dx)`, and changes nothing else of it; when
`dx < 0` that displacement is `-(penetration / d) * (dx, dy)` with `penetration / d >= 0`,
so it points along the line away from the other entity; and the pair test of a tick whose
hook leaves the other entity alone leaves the other entity as it was. -/
theorem AdjustEntityOverlap_displacement (m o : ArenaEntity ℝ σ)
    (hov : centreDistance m o ≤ m.radius + o.radius) (hdx : o.pose.x - m.pose.x ≠ 0) :
    0 < centreDistance m o ∧
    AdjustEntityOverlap m o =
      { m with pose :=
        ⟨m.pose.x + (m.radius + o.radius - centreDistance m o)
            * Real.cos (Real.arctan ((o.pose.y - m.pose.y) / (o.pose.x - m.pose.x))),
          m.pose.y + (m.radius + o.radius - centreDistance m o)
            * Real.sin (Real.arctan ((o.pose.y - m.pose.y) / (o.pose.x - m.pose.x)))⟩ } ∧
    (o.pose.x - m.pose.x < 0 →
      (AdjustEntityOverlap m o).pose.x - m.pose.x
        = -((m.radius + o.radius - centreDistance m o) / centreDistance m o)
          * (o.pose.x - m.pose.x) ∧
      (AdjustEntityOverlap m o).pose.y - m.pose.y
        = -((m.radius + o.radius - centreDistance m o) / centreDistance m o)
          * (o.pose.y - m.pose.y) ∧
      0 ≤ (m.radius + o.radius - centreDistance m o) / centreDistance m o) ∧
    (∀ (c : EntityContract σ) (a : Arena σ) (i j : Nat), j ≠ i →
      a.entities[i]? = some m → a.entities[j]? = some o →
      (c.HandleCollision (AdjustEntityOverlap m o) o.type (some o)).2 = none →
      (collideEntity c i a j).entities[j]? = some o) := by
  have hd : 0 < centreDistance m o := by
    rw [centreDistance_eq]
    exact sqrt_pos_of_ne_zero _ _ hdx
  refine ⟨hd, ?_, ?_, ?_⟩
  · rw [centreDistance_eq]
    simp only [AdjustEntityOverlap, ArenaEntity.set_position]
    congr 2 <;> ring
  · intro hneg
    obtain ⟨hcos, hsin⟩ := cos_sin_arctan_div_of_neg (o.pose.x - m.pose.x)
      (o.pose.y - m.pose.y) hneg
    rw [centreDistance_eq] at hd hov ⊢
    simp only [AdjustEntityOverlap, ArenaEntity.set_position, hcos, hsin]
    refine ⟨?_, ?_, div_nonneg (by linarith) hd.le⟩
    · field_simp
      ring
    · field_simp
      ring
  · intro c a i j hji h1 h2 hnone
    have hj : j < a.entities.length := by
      by_contra hlt
      rw [List.getElem?_eq_none (by omega)] at h2
      cases h2
    unfold collideEntity
    rw [if_neg hji, h1, h2]
    simp only
    split_ifs with hc
    · simp [List.getElem?_set, hnone, hj]
    · exact h2

/-- C17 (amended), at an instance: the mobile entity at (6, 0) against the entity at
(0, 0). -/
theorem AdjustEntityOverlap_displacement_witness :
    centreDistance rightMobile leftOther ≤ rightMobile.radius + leftOther.radius ∧
    leftOther.pose.x - rightMobile.pose.x ≠ 0 ∧
    0 < centreDistance rightMobile leftOther := by
  have h1 : centreDistance rightMobile leftOther ≤ rightMobile.radius + leftOther.radius := by
    rw [centreDistance_rightMobile_leftOther]
    norm_num [leftOther, rightMobile, exampleEntity]
  have h2 : leftOther.pose.x - rightMobile.pose.x ≠ 0 := by
    norm_num [leftOther, rightMobile, exampleEntity]
  exact ⟨h1, h2, (AdjustEntityOverlap_displacement rightMobile leftOther h1 h2).1⟩

end DirectionTheorems

/-! ## The status after a tick -/

section StatusTheorems

variable {σ : Type}

/-- C19: for `dt > 0` the status after `AdvanceTime(dt)` is read off the robot as it is right
after the entity updates: Won if its captured-base count is `N_BASES`, otherwise Lost if it
has 0 lives, otherwise the status before the call; so the status after the call is Won, Lost
or the status before, and it is Won when both conditions hold. -/
theorem AdvanceTime_game_status (c : EntityContract σ) (N_BASES : Int) (dt : Double)
    (a : Arena σ) (robot : ArenaEntity ℝ σ) (h : dt.gtZero = true)
    (hr : (updateEntities c a).entities[a.robot]? = some robot) :
    (AdvanceTime c N_BASES dt a).game_status
      = (if robot.num_bases_captured = N_BASES then GameStatus.WON
        else if robot.lives = 0 then GameStatus.LOST else a.game_status) ∧
    ((AdvanceTime c N_BASES dt a).game_status = GameStatus.WON ∨
      (AdvanceTime c N_BASES dt a).game_status = GameStatus.LOST ∨
      (AdvanceTime c N_BASES dt a).game_status = a.game_status) ∧
    (robot.num_bases_captured = N_BASES → robot.lives = 0 →
      (AdvanceTime c N_BASES dt a).game_status = GameStatus.WON) := by
  have hs : (AdvanceTime c N_BASES dt a).game_status
      = (if robot.num_bases_captured = N_BASES then GameStatus.WON
        else if robot.lives = 0 then GameStatus.LOST else a.game_status) := by
    rw [AdvanceTime_pos c N_BASES dt a h, UpdateEntitiesTimestep_game_status,
      checkWinLoss_game_status N_BASES _ robot
        (by rw [(updateEntities_spec c a).2.2.2.1]; exact hr),
      (updateEntities_spec c a).2.2.2.2.1]
  refine ⟨hs, ?_, ?_⟩
  · rw [hs]
    split_ifs
    · exact Or.inl rfl
    · exact Or.inr (Or.inl rfl)
    · exact Or.inr (Or.inr rfl)
  · intro hn _
    rw [hs, if_pos hn]

/-- C19 at an instance: with `N_BASES = 1`, a tick on the paused arena built from
`captureArena`, whose robot has 3 lives and no captured base when the check runs, leaves the
status Paused. -/
theorem AdvanceTime_game_status_witness :
    (Double.finite 1).gtZero = true ∧
    (updateEntities exampleContract
        { captureArena with game_status := GameStatus.PAUSED }).entities[captureArena.robot]?
      = some (exampleEntity EntityType.kRobot 50 50 5 3 0) ∧
    (AdvanceTime exampleContract 1 (Double.finite 1)
      { captureArena with game_status := GameStatus.PAUSED }).game_status
      = GameStatus.PAUSED := by
  have hpos : (Double.finite 1).gtZero = true := by simp [Double.gtZero]
  refine ⟨hpos, rfl, ?_⟩
  rw [(AdvanceTime_game_status exampleContract 1 (Double.finite 1)
    { captureArena with game_status := GameStatus.PAUSED }
    (exampleEntity EntityType.kRobot 50 50 5 3 0) hpos rfl).1]
  rfl

end StatusTheorems

/-! ## The order of the collision-hook calls of a tick -/

section OrderTheorems

variable {σ : Type}

end OrderTheorems

end csci3081
